import Mathlib

/-
Verification of the best-buy-scanner procurement engine.

The definitions below are a shallow embedding of the Python sources:
  * `best_buy/service.py`   — price comparison engine (get_best_prices_for_upc,
    get_upc_variants, get_shipping_cost, calculate_landed_cost, batch_compare)
  * `best_buy/routers/cart.py`      — cart operations and PO creation from cart
  * `best_buy/routers/orders.py`    — purchase order workflow
  * `best_buy/routers/receiving.py` — receiving sessions and discrepancy logic

Modelling conventions:
  * SQL numeric columns and Python floats are modelled as `ℚ`; `round(x, d)`
    is modelled as exact decimal rounding (`roundTo`), idealizing float
    tie-breaking.  None of the verified properties depend on float precision.
  * Datetimes are modelled as integer timestamps (seconds); the several
    `datetime.now()` calls inside one request are modelled as a single `now`
    parameter.
  * Python truthiness on nullable numeric / string columns (where `0`, `""`
    and `None` are all falsy) is modelled explicitly by `qTruthy`, `natOr`,
    `strOr` and `floatIfTruthy`.
  * SQLAlchemy queries are modelled as list filtering; `ORDER BY` is modelled
    by the stable `List.insertionSort` (CPython's sort is stable, so the two
    agree on ties up to the storage order, which the list order represents).
  * An HTTP endpoint is a function `DB → args → Except HttpError DB`;
    `Except.error` models `raise HTTPException` (the transaction aborts, so
    an error leaves the state unchanged — `step` below makes that explicit).
-/

deriving instance DecidableEq for Except

namespace BestBuy

/-- Exact decimal rounding to `d` places; models Python `round(x, d)`. -/
def roundTo (d : ℕ) (q : ℚ) : ℚ := ((round (q * (10 ^ d : ℚ)) : ℤ) : ℚ) / (10 ^ d : ℚ)

/-- Python `round(x, 4)`. -/
def round4 : ℚ → ℚ := roundTo 4

/-- Python `round(x, 2)`. -/
def round2 : ℚ → ℚ := roundTo 2

/-- Python `round(x, 1)`. -/
def round1 : ℚ → ℚ := roundTo 1

/-- Python truthiness of a nullable numeric column: `None` and `0` are falsy. -/
def qTruthy : Option ℚ → Bool
  | none => false
  | some q => q != 0

/-- Python `x or d` on a nullable integer column: `None` and `0` give the default. -/
def natOr (x : Option ℕ) (d : ℕ) : ℕ :=
  match x with
  | none => d
  | some n => if n = 0 then d else n

/-- Python `x or d` on a nullable string column: `None` and `""` give the default. -/
def strOr (x : Option String) (d : String) : String :=
  match x with
  | none => d
  | some s => if s = "" then d else s

/-- Python `float(x) if x else None` on a nullable numeric column. -/
def floatIfTruthy (x : Option ℚ) : Option ℚ :=
  match x with
  | none => none
  | some q => if q = 0 then none else some q

/-! ## Data model (models.py) -/

/-- Row of `products` (models.py `Product`), the fields the engine reads. -/
structure Product where
  id : ℕ
  upc : String
  name : String
  department : Option String
  current_vendor : Option String
  current_cost : Option ℚ
  retail_price : Option ℚ
  pack_size : Option ℕ
deriving DecidableEq

/-- Row of `suppliers` (models.py `Supplier`), the fields the engine reads. -/
structure Supplier where
  id : ℕ
  code : String
  name : String
  is_active : Bool
deriving DecidableEq

/-- Row of `supplier_prices` (models.py `SupplierPrice`). -/
structure SupplierPrice where
  id : ℕ
  upc : String
  supplier_id : ℕ
  unit_cost : ℚ
  case_cost : Option ℚ
  case_pack : Option ℕ
  effective_date : ℤ
  expires_at : Option ℤ
  price_type : Option String
  promo_name : Option String
  in_stock : Bool
deriving DecidableEq

/-- Row of `upc_aliases` (models.py `UPCAlias`). -/
structure UPCAlias where
  supplier_id : ℕ
  supplier_sku : String
  standard_upc : String
deriving DecidableEq

/-- Row of `supplier_shipping` (models.py `SupplierShipping`). -/
structure SupplierShipping where
  supplier_id : ℕ
  per_case_fee : Option ℚ
  flat_fee : Option ℚ
  free_shipping_threshold : Option ℚ
  effective_date : ℤ
deriving DecidableEq

/-- Row of `purchase_orders` (models.py `PurchaseOrder`). -/
structure PurchaseOrder where
  id : ℕ
  po_number : String
  supplier_id : ℕ
  status : String
  sent_at : Option ℤ
  closed_at : Option ℤ
  total_items : ℤ
  total_cases : ℤ
  total_cost : ℚ
  items_received : ℤ
  cases_received : ℤ
deriving DecidableEq

/-- Row of `po_line_items` (models.py `POLineItem`). -/
structure POLineItem where
  id : ℕ
  po_id : ℕ
  upc : String
  product_id : Option ℕ
  product_name : String
  qty_ordered : ℤ
  unit_cost : ℚ
  case_pack : ℕ
  line_total : ℚ
  qty_received : ℤ
  qty_pending : ℤ
  status : String
deriving DecidableEq

/-- Row of `order_cart_items` (models.py `OrderCartItem`). -/
structure OrderCartItem where
  id : ℕ
  upc : String
  product_id : Option ℕ
  product_name : String
  supplier_id : ℕ
  quantity : ℤ
  unit_cost : ℚ
  case_pack : ℕ
deriving DecidableEq

/-- Row of `receiving_sessions` (models.py `ReceivingSession`). -/
structure ReceivingSession where
  id : ℕ
  po_id : Option ℕ
  supplier_id : ℕ
  total_items : ℤ
  total_cases : ℤ
  items_short : ℤ
  items_over : ℤ
  items_damaged : ℤ
  status : String
deriving DecidableEq

/-- Row of `receiving_items` (models.py `ReceivingItem`). -/
structure ReceivingItem where
  id : ℕ
  session_id : ℕ
  po_line_id : Option ℕ
  upc : String
  product_id : Option ℕ
  product_name : String
  qty_received : ℤ
  qty_expected : Option ℤ
  qty_good : ℤ
  qty_damaged : ℤ
  discrepancy_type : Option String
  discrepancy_qty : Option ℤ
deriving DecidableEq

/-- The relational store.  Lists model tables in storage (insertion) order;
`next_id` models the autoincrement id source shared by created rows. -/
structure DB where
  products : List Product
  suppliers : List Supplier
  supplier_prices : List SupplierPrice
  upc_aliases : List UPCAlias
  supplier_shipping : List SupplierShipping
  purchase_orders : List PurchaseOrder
  line_items : List POLineItem
  cart : List OrderCartItem
  sessions : List ReceivingSession
  recv_items : List ReceivingItem
  next_id : ℕ
deriving DecidableEq

/-! ## Price comparison engine (service.py `BestBuyService`) -/

/-- service.py `get_product_by_upc`: first product with an exact UPC match. -/
def getProductByUpc (db : DB) (upc : String) : Option Product :=
  db.products.find? (fun p => p.upc == upc)

/-- The alias-collection loop body of `get_upc_variants`: append the alias
code unless it is already present. -/
def aliasFoldStep (vs : List String) (a : UPCAlias) : List String :=
  if a.supplier_sku ∈ vs then vs else vs ++ [a.supplier_sku]

/-- Python `s.startswith("0")`, modelled over the character list. -/
def startsWith0 (s : String) : Bool := s.data.take 1 == ['0']

/-- service.py `get_upc_variants`: the scanned code, then alias codes in query
order (deduplicated against what is already present), then one UPC-A/EAN-13
format variant. -/
def getUpcVariants (db : DB) (upc : String) : List String :=
  let variants := (db.upc_aliases.filter (fun a => a.standard_upc == upc)).foldl
    aliasFoldStep [upc]
  if upc.length = 12 then variants ++ ["0" ++ upc]
  else if upc.length = 13 ∧ startsWith0 upc then variants ++ [upc.drop 1]
  else variants

/-- The shipping-config dict built by service.py `get_shipping_cost`. -/
structure ShippingInfo where
  per_case_fee : Option ℚ
  flat_fee : Option ℚ
  free_shipping_threshold : Option ℚ
deriving DecidableEq

/-- Ordering used for `ORDER BY effective_date DESC` on shipping rows. -/
def shipDesc (a b : SupplierShipping) : Prop := b.effective_date ≤ a.effective_date

instance : DecidableRel shipDesc := fun a b => inferInstanceAs (Decidable (_ ≤ _))

/-- service.py `get_shipping_cost`: most recent shipping row for the supplier,
converted to a dict with Python-truthiness on each fee. -/
def getShippingCost (db : DB) (supplier_id : ℕ) : Option ShippingInfo :=
  let rows := List.insertionSort shipDesc
    (db.supplier_shipping.filter (fun s => s.supplier_id == supplier_id))
  match rows.head? with
  | none => none
  | some s => some
      { per_case_fee := floatIfTruthy s.per_case_fee,
        flat_fee := floatIfTruthy s.flat_fee,
        free_shipping_threshold := floatIfTruthy s.free_shipping_threshold }

/-- service.py `calculate_landed_cost`: unit cost plus `per_case_fee / case_pack`
(only when both are truthy), rounded to 4 decimals; without a shipping profile
the unit cost is returned unrounded. -/
def calculateLandedCost (unit_cost : ℚ) (case_pack : ℕ) (shipping : Option ShippingInfo) : ℚ :=
  match shipping with
  | none => unit_cost
  | some s =>
    let per_unit_shipping : ℚ :=
      if qTruthy s.per_case_fee ∧ case_pack ≠ 0 then s.per_case_fee.getD 0 / (case_pack : ℚ)
      else 0
    round4 (unit_cost + per_unit_shipping)

/-- service.py `get_price_age_hours`. -/
def getPriceAgeHours (now eff : ℤ) : ℚ := round1 (((now - eff : ℤ) : ℚ) / 3600)

/-- The WHERE clause of the supplier-price query in `get_best_prices_for_upc`:
UPC among the variants, effective within the freshness window, not expired,
and in stock unless out-of-stock rows were requested. -/
def pricePred (all_upcs : List String) (now cutoff : ℤ) (include_out_of_stock : Bool)
    (p : SupplierPrice) : Bool :=
  decide (p.upc ∈ all_upcs) && decide (cutoff ≤ p.effective_date) &&
  decide (p.effective_date ≤ now) &&
  (match p.expires_at with | none => true | some e => decide (now < e)) &&
  (include_out_of_stock || p.in_stock)

/-- The `ORDER BY (supplier_id ASC, effective_date DESC)` ordering on prices. -/
def priceLex (a b : SupplierPrice) : Prop :=
  a.supplier_id < b.supplier_id ∨ (a.supplier_id = b.supplier_id ∧ b.effective_date ≤ a.effective_date)

instance : DecidableRel priceLex := fun a b => inferInstanceAs (Decidable (_ ∨ _))

instance : IsTotal SupplierPrice priceLex where
  total a b := by
    rcases Nat.lt_trichotomy a.supplier_id b.supplier_id with h | h | h
    · exact Or.inl (Or.inl h)
    · rcases le_total b.effective_date a.effective_date with h2 | h2
      · exact Or.inl (Or.inr ⟨h, h2⟩)
      · exact Or.inr (Or.inr ⟨h.symm, h2⟩)
    · exact Or.inr (Or.inl h)

instance : IsTrans SupplierPrice priceLex where
  trans a b c hab hbc := by
    rcases hab with h1 | ⟨e1, d1⟩
    · rcases hbc with h2 | ⟨e2, _⟩
      · exact Or.inl (h1.trans h2)
      · exact Or.inl (e2 ▸ h1)
    · rcases hbc with h2 | ⟨e2, d2⟩
      · exact Or.inl (e1 ▸ h2)
      · exact Or.inr ⟨e1.trans e2, d2.trans d1⟩

/-- Steps 2–4 of `get_best_prices_for_upc`: candidate price rows, filtered by
the WHERE clause and ordered by (supplier_id, effective_date DESC). -/
def candidatePrices (db : DB) (now : ℤ) (upc : String) (max_age_hours : ℤ)
    (include_out_of_stock : Bool) : List SupplierPrice :=
  let all_upcs := getUpcVariants db upc
  let cutoff := now - max_age_hours * 3600
  List.insertionSort priceLex
    (db.supplier_prices.filter (pricePred all_upcs now cutoff include_out_of_stock))

/-- Step 5 of `get_best_prices_for_upc`: keep the first occurrence of each
supplier_id (the ordered input puts the latest price first per supplier). -/
def dedupBySupplier : List SupplierPrice → List ℕ → List SupplierPrice
  | [], _ => []
  | p :: rest, seen =>
    if p.supplier_id ∈ seen then dedupBySupplier rest seen
    else p :: dedupBySupplier rest (p.supplier_id :: seen)

/-- One entry of the `prices` list of a comparison result.  In the source the
`rank` key is absent until step 8; offers are built here with `rank := 0` and
ranks are assigned after sorting, exactly as the mutation loop does. -/
structure Offer where
  supplier_id : ℕ
  supplier_name : String
  supplier_code : String
  unit_cost : ℚ
  case_cost : ℚ
  case_pack : ℕ
  landed_cost_per_unit : ℚ
  effective_date : ℤ
  price_age_hours : ℚ
  in_stock : Bool
  price_type : String
  promo_name : Option String
  savings_vs_current : Option ℚ
  rank : ℕ
deriving DecidableEq

/-- SQLAlchemy `Query.get` on suppliers: lookup by primary key. -/
def getSupplier (db : DB) (supplier_id : ℕ) : Option Supplier :=
  db.suppliers.find? (fun s => s.id == supplier_id)

/-- One iteration of the result-building loop (step 6 of
`get_best_prices_for_upc`); `none` when the supplier is missing or inactive. -/
def buildOffer (db : DB) (now : ℤ) (product : Product) (price : SupplierPrice) : Option Offer :=
  match getSupplier db price.supplier_id with
  | none => none
  | some supplier =>
    if supplier.is_active then
      let shipping := getShippingCost db price.supplier_id
      let landed := calculateLandedCost price.unit_cost (natOr price.case_pack 1) shipping
      let savings : Option ℚ :=
        if qTruthy product.current_cost then some (product.current_cost.getD 0 - price.unit_cost)
        else none
      some
        { supplier_id := supplier.id,
          supplier_name := supplier.name,
          supplier_code := supplier.code,
          unit_cost := price.unit_cost,
          case_cost :=
            match price.case_cost with
            | some c => if c = 0 then price.unit_cost * (natOr price.case_pack 1 : ℚ) else c
            | none => price.unit_cost * (natOr price.case_pack 1 : ℚ),
          case_pack := natOr price.case_pack 1,
          landed_cost_per_unit := landed,
          effective_date := price.effective_date,
          price_age_hours := getPriceAgeHours now price.effective_date,
          in_stock := price.in_stock,
          price_type := strOr price.price_type "list",
          promo_name := price.promo_name,
          savings_vs_current :=
            match savings with
            | none => none
            | some s => if s = 0 then none else some (round4 s),
          rank := 0 }
    else none

/-- The sort key of step 7: ascending landed cost per unit. -/
def offerLe (a b : Offer) : Prop := a.landed_cost_per_unit ≤ b.landed_cost_per_unit

instance : DecidableRel offerLe := fun a b => inferInstanceAs (Decidable (_ ≤ _))

instance : IsTotal Offer offerLe where
  total a b := le_total a.landed_cost_per_unit b.landed_cost_per_unit

instance : IsTrans Offer offerLe where
  trans _ _ _ hab hbc := le_trans hab hbc

/-- Step 8 of `get_best_prices_for_upc`: `for i, r in enumerate(results):
r["rank"] = i + 1`, with the position counter made explicit. -/
def addRanksFrom (n : ℕ) : List Offer → List Offer
  | [] => []
  | o :: os => { o with rank := n + 1 } :: addRanksFrom (n + 1) os

/-- Rank assignment starting at position 0. -/
def addRanks (l : List Offer) : List Offer := addRanksFrom 0 l

/-- Python `min` over a nonempty list (0 for the empty list, never used there). -/
def listMin : List ℚ → ℚ
  | [] => 0
  | x :: xs => xs.foldl min x

/-- Python `max` over a nonempty list (0 for the empty list, never used there). -/
def listMax : List ℚ → ℚ
  | [] => 0
  | x :: xs => xs.foldl max x

/-- Python `sum`. -/
def listSum (l : List ℚ) : ℚ := l.foldl (· + ·) 0

/-- The `statistics` dict of a comparison result. -/
structure Stats where
  min_cost : ℚ
  max_cost : ℚ
  avg_cost : ℚ
  spread : ℚ
  potential_savings : Option ℚ
deriving DecidableEq

/-- The `product` dict of a comparison result (step 10). -/
structure ProductInfo where
  id : ℕ
  name : String
  department : Option String
  current_cost : Option ℚ
  current_vendor : Option String
  retail_price : Option ℚ
  pack_size : ℕ
deriving DecidableEq

/-- The dict returned by `get_best_prices_for_upc`. -/
structure ComparisonResult where
  upc : String
  product : Option ProductInfo
  prices : List Offer
  statistics : Option Stats
  suppliers_checked : ℕ
  comparison_time : ℤ
  error : Option String
deriving DecidableEq

/-- service.py `get_best_prices_for_upc`: the full comparison pipeline.
A missing product yields the error-shaped result (never an exception). -/
def getBestPricesForUpc (db : DB) (now : ℤ) (upc : String)
    (max_age_hours : ℤ := 168) (include_out_of_stock : Bool := false)
    (limit : ℕ := 10) : ComparisonResult :=
  match getProductByUpc db upc with
  | none =>
    { upc := upc, product := none, prices := [], statistics := none,
      suppliers_checked := 0, comparison_time := now,
      error := some "Product not found in catalog" }
  | some product =>
    let prices := candidatePrices db now upc max_age_hours include_out_of_stock
    let unique_prices := dedupBySupplier prices []
    let results := unique_prices.filterMap (buildOffer db now product)
    let results := addRanks (List.insertionSort offerLe results)
    let stats : Option Stats :=
      match results with
      | [] => none
      | _ =>
        let costs := results.map Offer.unit_cost
        let potential_savings : Option ℚ :=
          if qTruthy product.current_cost then some (product.current_cost.getD 0 - listMin costs)
          else none
        some
          { min_cost := listMin costs,
            max_cost := listMax costs,
            avg_cost := round4 (listSum costs / (costs.length : ℚ)),
            spread := round4 (listMax costs - listMin costs),
            potential_savings :=
              match potential_savings with
              | none => none
              | some ps => if ps ≠ 0 ∧ 0 < ps then some (round4 ps) else none }
    let product_info : ProductInfo :=
      { id := product.id,
        name := product.name,
        department := product.department,
        current_cost := floatIfTruthy product.current_cost,
        current_vendor := product.current_vendor,
        retail_price := floatIfTruthy product.retail_price,
        pack_size := natOr product.pack_size 1 }
    { upc := upc, product := some product_info, prices := results.take limit,
      statistics := stats, suppliers_checked := results.length,
      comparison_time := now, error := none }

/-- The `summary` dict of `batch_compare`. -/
structure BatchSummary where
  items_compared : ℕ
  items_with_prices : ℕ
  total_potential_savings : ℚ
deriving DecidableEq

/-- The dict returned by `batch_compare`. -/
structure BatchResult where
  comparisons : List ComparisonResult
  summary : BatchSummary
deriving DecidableEq

/-- One iteration of the savings loop of `batch_compare`: models
`if comparison.get("statistics", ...).get("potential_savings"): total += ..`.
The `"statistics"` key is always present in a comparison result, so the dict
default never applies; when the stored value is `None` the chained attribute
access raises `AttributeError`, modelled as `Except.error`. -/
def batchSavingsStep (acc : ℚ) (c : ComparisonResult) : Except String ℚ :=
  match c.statistics with
  | none => Except.error "AttributeError: NoneType object has no attribute get"
  | some s =>
    match s.potential_savings with
    | some v => if v ≠ 0 then Except.ok (acc + v) else Except.ok acc
    | none => Except.ok acc

/-- service.py `batch_compare`: one comparison per UPC with default parameters,
a running savings total (truthy savings only), and a summary.  The savings
accumulation raises (propagated as `Except.error`) whenever a comparison has
`statistics = None`. -/
def batchCompare (db : DB) (now : ℤ) (upcs : List String) : Except String BatchResult := do
  let comparisons := upcs.map (fun u => getBestPricesForUpc db now u)
  let total_savings ← comparisons.foldlM batchSavingsStep (0 : ℚ)
  Except.ok
    { comparisons := comparisons,
      summary :=
        { items_compared := comparisons.length,
          items_with_prices := (comparisons.filter (fun r => !r.prices.isEmpty)).length,
          total_potential_savings := round2 total_savings } }

/-! ## Purchase order / cart / receiving workflow (routers) -/

/-- An `HTTPException(code, msg)`; raising one aborts the request transaction. -/
structure HttpError where
  code : ℕ
  msg : String
deriving DecidableEq

/-- SQLAlchemy `Query.get` on purchase orders. -/
def findPO (db : DB) (po_id : ℕ) : Option PurchaseOrder :=
  db.purchase_orders.find? (fun p => p.id == po_id)

/-- Point update of one purchase order row. -/
def updatePO (db : DB) (po_id : ℕ) (f : PurchaseOrder → PurchaseOrder) : DB :=
  { db with purchase_orders := db.purchase_orders.map (fun p => if p.id == po_id then f p else p) }

/-- SQLAlchemy `Query.get` on receiving sessions. -/
def findSession (db : DB) (session_id : ℕ) : Option ReceivingSession :=
  db.sessions.find? (fun s => s.id == session_id)

/-- Point update of one receiving session row. -/
def updateSession (db : DB) (session_id : ℕ) (f : ReceivingSession → ReceivingSession) : DB :=
  { db with sessions := db.sessions.map (fun s => if s.id == session_id then f s else s) }

/-- First line item of the order with the given UPC (orders.py line 204,
receiving.py line 246). -/
def findLine (db : DB) (po_id : ℕ) (upc : String) : Option POLineItem :=
  db.line_items.find? (fun li => li.po_id == po_id && li.upc == upc)

/-- Point update of one line item row. -/
def updateLine (db : DB) (line_id : ℕ) (f : POLineItem → POLineItem) : DB :=
  { db with line_items := db.line_items.map (fun li => if li.id == line_id then f li else li) }

/-- `product.name if product else f"UPC: .."` used by cart/orders/receiving. -/
def findProductName (db : DB) (upc : String) : String :=
  match getProductByUpc db upc with
  | some p => p.name
  | none => "UPC: " ++ upc

/-- Ordering used for `ORDER BY effective_date DESC` on price rows. -/
def priceDesc (a b : SupplierPrice) : Prop := b.effective_date ≤ a.effective_date

instance : DecidableRel priceDesc := fun a b => inferInstanceAs (Decidable (_ ≤ _))

/-- The most recent supplier price for a (upc, supplier) pair:
`ORDER BY effective_date DESC` then `.first()` (cart.py 109, orders.py 189). -/
def latestSupplierPrice (db : DB) (upc : String) (supplier_id : ℕ) : Option SupplierPrice :=
  (List.insertionSort priceDesc
    (db.supplier_prices.filter (fun p => p.upc == upc && p.supplier_id == supplier_id))).head?

/-- orders.py `_update_po_totals`: recompute header totals from line items. -/
def updatePOTotals (db : DB) (po_id : ℕ) : DB :=
  let items := db.line_items.filter (fun li => li.po_id == po_id)
  updatePO db po_id (fun po =>
    { po with
      total_items := (items.length : ℤ),
      total_cases := (items.map POLineItem.qty_ordered).sum,
      total_cost := (items.map POLineItem.line_total).sum,
      items_received := ((items.filter (fun li => decide (0 < li.qty_received))).length : ℤ),
      cases_received := (items.map POLineItem.qty_received).sum })

/-- receiving.py `_update_po_receiving_totals`: recompute only the receiving
counters of the header. -/
def updatePOReceivingTotals (db : DB) (po_id : ℕ) : DB :=
  let items := db.line_items.filter (fun li => li.po_id == po_id)
  updatePO db po_id (fun po =>
    { po with
      items_received := ((items.filter (fun li => decide (0 < li.qty_received))).length : ℤ),
      cases_received := (items.map POLineItem.qty_received).sum })

/-- cart.py `add_to_cart`: default the unit cost from the most recent supplier
price (raising 400 when none exists), then merge into an existing (upc,
supplier) cart row or append a new one. -/
def addToCart (db : DB) (upc : String) (supplier_id : ℕ) (quantity : ℤ)
    (unit_cost? : Option ℚ) : Except HttpError DB :=
  match getSupplier db supplier_id with
  | none => Except.error ⟨404, "Supplier not found"⟩
  | some _ =>
    let product_id := (getProductByUpc db upc).map Product.id
    let product_name := findProductName db upc
    let cost_pack : Option (ℚ × ℕ) :=
      match unit_cost? with
      | none =>
        match latestSupplierPrice db upc supplier_id with
        | some p => some (p.unit_cost, natOr p.case_pack 1)
        | none => none
      | some c => some (c, 1)
    match cost_pack with
    | none => Except.error ⟨400, "No price found for this item from this supplier"⟩
    | some cp =>
      match db.cart.find? (fun i => i.upc == upc && i.supplier_id == supplier_id) with
      | some existing =>
        let newCart := db.cart.map
          (fun i => if i.id == existing.id then { i with quantity := i.quantity + quantity } else i)
        Except.ok { db with cart := newCart }
      | none =>
        let item : OrderCartItem :=
          { id := db.next_id, upc := upc, product_id := product_id,
            product_name := product_name, supplier_id := supplier_id, quantity := quantity,
            unit_cost := cp.1, case_pack := cp.2 }
        Except.ok { db with cart := db.cart ++ [item], next_id := db.next_id + 1 }

/-- cart.py `remove_from_cart`. -/
def removeFromCart (db : DB) (item_id : ℕ) : Except HttpError DB :=
  match db.cart.find? (fun i => i.id == item_id) with
  | none => Except.error ⟨404, "Item not found"⟩
  | some _ => Except.ok { db with cart := db.cart.filter (fun i => !(i.id == item_id)) }

/-- cart.py `clear_cart`. -/
def clearCart (db : DB) : Except HttpError DB :=
  Except.ok { db with cart := [] }

/-- Zero-padded 3-digit sequence (`f"...{n:03d}"`). -/
def format3 (n : ℕ) : String :=
  if n < 10 then "00" ++ toString n
  else if n < 100 then "0" ++ toString n
  else toString n

/-- orders.py `generate_po_number` (duplicated inline in cart.py):
`PO-{code}-{today}-{seq}` with seq = matching-count + 1. -/
def generatePONumber (db : DB) (supplier_code today : String) : String :=
  let pfx := "PO-" ++ supplier_code ++ "-" ++ today
  let existing := (db.purchase_orders.filter (fun po => pfx.isPrefixOf po.po_number)).length
  pfx ++ "-" ++ format3 (existing + 1)

/-- One iteration of the per-supplier loop of cart.py `create_pos_from_cart`:
create a draft PO with one line per cart entry of that supplier and set the
header totals.  (The supplier row always exists for cart entries; a dangling
reference leaves the store unchanged.) -/
def createPOForSupplier (db : DB) (today : String) (supplier_id : ℕ) : DB :=
  let supplier_items := db.cart.filter (fun i => i.supplier_id == supplier_id)
  match getSupplier db supplier_id with
  | none => db
  | some supplier =>
    let po_number := generatePONumber db supplier.code today
    let po_id := db.next_id
    let total_cost := (supplier_items.map (fun i => i.unit_cost * (i.quantity : ℚ))).sum
    let po : PurchaseOrder :=
      { id := po_id, po_number := po_number, supplier_id := supplier_id,
        status := "draft", sent_at := none, closed_at := none,
        total_items := (supplier_items.length : ℤ),
        total_cases := (supplier_items.map OrderCartItem.quantity).sum,
        total_cost := total_cost, items_received := 0, cases_received := 0 }
    let lines : List POLineItem := supplier_items.enum.map (fun p =>
      { id := db.next_id + 1 + p.1, po_id := po_id, upc := p.2.upc,
        product_id := p.2.product_id, product_name := p.2.product_name,
        qty_ordered := p.2.quantity, unit_cost := p.2.unit_cost,
        case_pack := p.2.case_pack, line_total := p.2.unit_cost * (p.2.quantity : ℚ),
        qty_received := 0, qty_pending := p.2.quantity, status := "pending" })
    { db with
      purchase_orders := db.purchase_orders ++ [po],
      line_items := db.line_items ++ lines,
      next_id := db.next_id + 1 + supplier_items.length }

/-- The supplier grouping order of `defaultdict` iteration: suppliers in order
of first appearance in the cart. -/
def cartSupplierKeys (items : List OrderCartItem) : List ℕ :=
  items.foldl (fun acc i => if i.supplier_id ∈ acc then acc else acc ++ [i.supplier_id]) []

/-- cart.py `create_pos_from_cart`: one PO per cart supplier, then clear the
cart as the last step of the same transaction. -/
def createPOsFromCart (db : DB) (today : String) : Except HttpError DB :=
  if db.cart.isEmpty then Except.error ⟨400, "Cart is empty"⟩
  else
    let keys := cartSupplierKeys db.cart
    let db2 := keys.foldl (fun d sid => createPOForSupplier d today sid) db
    Except.ok { db2 with cart := [] }

/-- orders.py `create_order`: a fresh draft purchase order. -/
def createOrder (db : DB) (supplier_id : ℕ) (today : String) : Except HttpError DB :=
  match getSupplier db supplier_id with
  | none => Except.error ⟨404, "Supplier not found"⟩
  | some supplier =>
    let po : PurchaseOrder :=
      { id := db.next_id, po_number := generatePONumber db supplier.code today,
        supplier_id := supplier_id, status := "draft", sent_at := none, closed_at := none,
        total_items := 0, total_cases := 0, total_cost := 0,
        items_received := 0, cases_received := 0 }
    Except.ok { db with purchase_orders := db.purchase_orders ++ [po], next_id := db.next_id + 1 }

/-- orders.py `add_item_to_order`: allowed on draft/sent orders; a missing
unit cost defaults to the most recent supplier price, or to 0 when no price
row exists; a line with the same UPC is merged in place, otherwise a new line
is appended; header totals are recomputed. -/
def addItemToOrder (db : DB) (po_id : ℕ) (upc : String) (qty : ℤ)
    (unit_cost? : Option ℚ) : Except HttpError DB :=
  match findPO db po_id with
  | none => Except.error ⟨404, "Order not found"⟩
  | some po =>
    if po.status ≠ "draft" ∧ po.status ≠ "sent" then
      Except.error ⟨400, "Cannot add items to " ++ po.status ++ " order"⟩
    else
      let product_id := (getProductByUpc db upc).map Product.id
      let product_name := findProductName db upc
      let cost_pack : ℚ × ℕ :=
        match unit_cost? with
        | none =>
          match latestSupplierPrice db upc po.supplier_id with
          | some sp => (sp.unit_cost, natOr sp.case_pack 1)
          | none => (0, 1)
        | some c => (c, 1)
      match findLine db po_id upc with
      | some existing =>
        let db2 := updateLine db existing.id (fun li =>
          { li with
            qty_ordered := li.qty_ordered + qty,
            line_total := ((li.qty_ordered + qty : ℤ) : ℚ) * cost_pack.1,
            qty_pending := li.qty_ordered + qty - li.qty_received })
        Except.ok (updatePOTotals db2 po_id)
      | none =>
        let line : POLineItem :=
          { id := db.next_id, po_id := po_id, upc := upc,
            product_id := product_id, product_name := product_name,
            qty_ordered := qty, unit_cost := cost_pack.1, case_pack := cost_pack.2,
            line_total := (qty : ℚ) * cost_pack.1,
            qty_received := 0, qty_pending := qty, status := "pending" }
        let db2 := { db with line_items := db.line_items ++ [line], next_id := db.next_id + 1 }
        Except.ok (updatePOTotals db2 po_id)

/-- orders.py `remove_item_from_order`: draft orders only. -/
def removeItemFromOrder (db : DB) (po_id item_id : ℕ) : Except HttpError DB :=
  match findPO db po_id with
  | none => Except.error ⟨404, "Order not found"⟩
  | some po =>
    if po.status ≠ "draft" then
      Except.error ⟨400, "Cannot remove items from " ++ po.status ++ " order"⟩
    else
      match db.line_items.find? (fun li => li.id == item_id && li.po_id == po_id) with
      | none => Except.error ⟨404, "Item not found"⟩
      | some _ =>
        let db2 := { db with line_items := db.line_items.filter (fun li => !(li.id == item_id)) }
        Except.ok (updatePOTotals db2 po_id)

/-- orders.py `send_order`: draft only, and only with at least one line. -/
def sendOrder (db : DB) (now : ℤ) (po_id : ℕ) : Except HttpError DB :=
  match findPO db po_id with
  | none => Except.error ⟨404, "Order not found"⟩
  | some po =>
    if po.status ≠ "draft" then
      Except.error ⟨400, "Can only send draft orders, current status: " ++ po.status⟩
    else if po.total_items = 0 then Except.error ⟨400, "Cannot send empty order"⟩
    else Except.ok (updatePO db po_id (fun p => { p with status := "sent", sent_at := some now }))

/-- orders.py `close_order`: unconditionally sets status closed and closed_at. -/
def closeOrder (db : DB) (now : ℤ) (po_id : ℕ) : Except HttpError DB :=
  match findPO db po_id with
  | none => Except.error ⟨404, "Order not found"⟩
  | some _ =>
    Except.ok (updatePO db po_id (fun p => { p with status := "closed", closed_at := some now }))

/-- orders.py `delete_order`: draft only; line items cascade. -/
def deleteOrder (db : DB) (po_id : ℕ) : Except HttpError DB :=
  match findPO db po_id with
  | none => Except.error ⟨404, "Order not found"⟩
  | some po =>
    if po.status ≠ "draft" then Except.error ⟨400, "Can only delete draft orders"⟩
    else
      Except.ok { db with
        purchase_orders := db.purchase_orders.filter (fun p => !(p.id == po_id)),
        line_items := db.line_items.filter (fun li => !(li.po_id == po_id)) }

/-- receiving.py `start_receiving_session`: anchored to a PO (deriving the
supplier and bumping a sent PO to partial) or to a bare supplier. -/
def startSession (db : DB) (po_id? supplier_id? : Option ℕ) : Except HttpError DB :=
  match po_id? with
  | some pid =>
    match findPO db pid with
    | none => Except.error ⟨404, "Purchase order not found"⟩
    | some po =>
      let db2 := if po.status = "sent"
        then updatePO db pid (fun p => { p with status := "partial" }) else db
      let s : ReceivingSession :=
        { id := db2.next_id, po_id := some pid, supplier_id := po.supplier_id,
          total_items := 0, total_cases := 0, items_short := 0, items_over := 0,
          items_damaged := 0, status := "in_progress" }
      Except.ok { db2 with sessions := db2.sessions ++ [s], next_id := db2.next_id + 1 }
  | none =>
    match supplier_id? with
    | none => Except.error ⟨400, "Must provide po_id or supplier_id"⟩
    | some sid =>
      match getSupplier db sid with
      | none => Except.error ⟨404, "Supplier not found"⟩
      | some _ =>
        let s : ReceivingSession :=
          { id := db.next_id, po_id := none, supplier_id := sid,
            total_items := 0, total_cases := 0, items_short := 0, items_over := 0,
            items_damaged := 0, status := "in_progress" }
        Except.ok { db with sessions := db.sessions ++ [s], next_id := db.next_id + 1 }

/-- The discrepancy classification of receiving.py `receive_item` (lines
254–265): short and over are decided first, damaged only when neither holds
and some units were damaged. -/
def classifyDiscrepancy (qty_good qty_expected qty_damaged : ℤ) : Option String × Option ℤ :=
  if qty_good < qty_expected then (some "short", some (qty_expected - qty_good))
  else if qty_expected < qty_good then (some "over", some (qty_good - qty_expected))
  else if 0 < qty_damaged then (some "damaged", some qty_damaged)
  else (none, none)

/-- The response dict of `receive_item` (the fields the claims are about). -/
structure ReceiveResponse where
  upc : String
  qty_received : ℤ
  qty_expected : Option ℤ
  qty_good : ℤ
  qty_damaged : ℤ
  discrepancy_type : Option String
  discrepancy_qty : Option ℤ
  on_po : Bool
deriving DecidableEq

/-- receiving.py `receive_item`: reject completed sessions, match a PO line by
UPC (when PO-anchored), classify the discrepancy, update the line's received
and pending counts and per-line status, create a ReceivingItem, bump session
totals and discrepancy counters, and recompute the PO receiving counters. -/
def receiveItem (db : DB) (session_id : ℕ) (upc : String) (qty_received qty_damaged : ℤ) :
    Except HttpError (DB × ReceiveResponse) :=
  match findSession db session_id with
  | none => Except.error ⟨404, "Session not found"⟩
  | some session =>
    if session.status = "completed" then Except.error ⟨400, "Session already completed"⟩
    else
      let product_id := (getProductByUpc db upc).map Product.id
      let product_name := findProductName db upc
      let po_line : Option POLineItem :=
        match session.po_id with
        | some pid => findLine db pid upc
        | none => none
      let qty_expected : Option ℤ := po_line.map (fun li => li.qty_ordered - li.qty_received)
      let discrepancy : Option String × Option ℤ :=
        match session.po_id, po_line with
        | some _, some li =>
          classifyDiscrepancy (qty_received - qty_damaged) (li.qty_ordered - li.qty_received)
            qty_damaged
        | some _, none => (some "wrong_item", none)
        | none, _ => (none, none)
      let db2 :=
        match po_line with
        | some li =>
          updateLine db li.id (fun l =>
            let received := l.qty_received + qty_received
            { l with
              qty_received := received,
              qty_pending := l.qty_ordered - received,
              status :=
                if l.qty_ordered ≤ received then "received"
                else if 0 < received then "partial"
                else l.status })
        | none => db
      let recv_item : ReceivingItem :=
        { id := db2.next_id, session_id := session_id,
          po_line_id := po_line.map POLineItem.id, upc := upc,
          product_id := product_id, product_name := product_name,
          qty_received := qty_received, qty_expected := qty_expected,
          qty_good := qty_received - qty_damaged, qty_damaged := qty_damaged,
          discrepancy_type := discrepancy.1, discrepancy_qty := discrepancy.2 }
      let db3 :=
        { db2 with
          recv_items := db2.recv_items ++ [recv_item],
          next_id := db2.next_id + 1 }
      let db4 := updateSession db3 session_id (fun s =>
        { s with
          total_items := s.total_items + 1,
          total_cases := s.total_cases + qty_received,
          items_short := if discrepancy.1 = some "short" then s.items_short + 1 else s.items_short,
          items_over := if discrepancy.1 ≠ some "short" ∧ discrepancy.1 = some "over"
            then s.items_over + 1 else s.items_over,
          items_damaged := if discrepancy.1 ≠ some "short" ∧ discrepancy.1 ≠ some "over" ∧
              (discrepancy.1 = some "damaged" ∨ 0 < qty_damaged)
            then s.items_damaged + 1 else s.items_damaged })
      let db5 :=
        match session.po_id with
        | some pid => updatePOReceivingTotals db4 pid
        | none => db4
      Except.ok (db5,
        { upc := upc, qty_received := qty_received, qty_expected := qty_expected,
          qty_good := qty_received - qty_damaged, qty_damaged := qty_damaged,
          discrepancy_type := discrepancy.1, discrepancy_qty := discrepancy.2,
          on_po := po_line.isSome })

/-- receiving.py `complete_session`: mark the session completed and, when
PO-anchored, set the PO status from the pending line count.  A dangling PO
reference raises (`po` is `None`), modelled as a 500 error. -/
def completeSession (db : DB) (session_id : ℕ) : Except HttpError DB :=
  match findSession db session_id with
  | none => Except.error ⟨404, "Session not found"⟩
  | some session =>
    let db2 := updateSession db session_id (fun s => { s with status := "completed" })
    match session.po_id with
    | none => Except.ok db2
    | some pid =>
      match findPO db2 pid with
      | none => Except.error ⟨500, "AttributeError: NoneType object has no attribute status"⟩
      | some _ =>
        let pending := (db2.line_items.filter
          (fun li => li.po_id == pid && decide (0 < li.qty_pending))).length
        Except.ok (updatePO db2 pid (fun po =>
          { po with status := if pending = 0 then "received" else "partial" }))

/-! ## Operations and transitions -/

/-- The logical operations of the external interface that create or mutate
workflow state (spec section 6). -/
inductive Op where
  | cartAdd (upc : String) (supplier_id : ℕ) (quantity : ℤ) (unit_cost? : Option ℚ)
  | cartRemove (item_id : ℕ)
  | cartClear
  | cartCreateOrders (today : String)
  | orderCreate (supplier_id : ℕ) (today : String)
  | orderAddItem (po_id : ℕ) (upc : String) (qty : ℤ) (unit_cost? : Option ℚ)
  | orderRemoveItem (po_id : ℕ) (item_id : ℕ)
  | orderSend (po_id : ℕ) (now : ℤ)
  | orderClose (po_id : ℕ) (now : ℤ)
  | orderDelete (po_id : ℕ)
  | recvStart (po_id? : Option ℕ) (supplier_id? : Option ℕ)
  | recvReceive (session_id : ℕ) (upc : String) (qty_received qty_damaged : ℤ)
  | recvComplete (session_id : ℕ)
deriving DecidableEq

/-- Dispatch an operation to its endpoint. -/
def applyOp (db : DB) : Op → Except HttpError DB
  | .cartAdd u s q c => addToCart db u s q c
  | .cartRemove i => removeFromCart db i
  | .cartClear => clearCart db
  | .cartCreateOrders t => createPOsFromCart db t
  | .orderCreate s t => createOrder db s t
  | .orderAddItem p u q c => addItemToOrder db p u q c
  | .orderRemoveItem p i => removeItemFromOrder db p i
  | .orderSend p n => sendOrder db n p
  | .orderClose p n => closeOrder db n p
  | .orderDelete p => deleteOrder db p
  | .recvStart p s => startSession db p s
  | .recvReceive s u qr qd => (receiveItem db s u qr qd).map Prod.fst
  | .recvComplete s => completeSession db s

/-- One request: on success the new state commits, on an HTTP error the
transaction aborts and the state is unchanged. -/
def step (db : DB) (op : Op) : DB :=
  match applyOp db op with
  | .ok db2 => db2
  | .error _ => db

/-- A sequence of requests. -/
def run (db : DB) : List Op → DB
  | [] => db
  | op :: ops => run (step db op) ops

/-! ## Derived observations and reference definitions -/

/-- Modelled from the spec (section 4.3, batch variant): the batch summary
accumulates the "sum of potential_savings across items (treating null/absent
savings as 0)".  This is the spec-side reference value that the implemented
accumulation is compared against. -/
def specSavingsSum (cs : List ComparisonResult) : ℚ :=
  (cs.map (fun c =>
    match c.statistics with
    | none => 0
    | some s => s.potential_savings.getD 0)).sum

/-- The LineItem invariant of the spec: pending quantity is always ordered
minus received. -/
def linesOk (ls : List POLineItem) : Prop :=
  ∀ li ∈ ls, li.qty_pending = li.qty_ordered - li.qty_received

instance : DecidablePred linesOk := fun ls => List.decidableBAll _ ls

/-- Status of a purchase order, observed through its primary key. -/
def poStatus (db : DB) (po_id : ℕ) : Option String :=
  (findPO db po_id).map PurchaseOrder.status

/-- Recognizes the one operation that can move a closed purchase order:
completing a receiving session anchored to that order. -/
def completesAnchoredSession (db : DB) (po_id : ℕ) : Op → Bool
  | .recvComplete sid =>
    match findSession db sid with
    | some s => s.po_id == some po_id
    | none => false
  | _ => false

/-! ## Concrete stores used to witness the theorems -/

/-- The empty store. -/
def emptyDB : DB :=
  { products := [], suppliers := [], supplier_prices := [], upc_aliases := [],
    supplier_shipping := [], purchase_orders := [], line_items := [], cart := [],
    sessions := [], recv_items := [], next_id := 1 }

/-- A catalog with one product and three in-window prices from two active
suppliers; supplier 1 has an older and a newer price. -/
def cmpDB : DB :=
  { emptyDB with
    products := [⟨1, "111", "Widget", none, none, some 5, none, some 1⟩],
    suppliers := [⟨1, "A", "Alpha", true⟩, ⟨2, "B", "Beta", true⟩],
    supplier_prices :=
      [⟨1, "111", 1, 3, none, some 1, 100, none, none, none, true⟩,
       ⟨2, "111", 1, 4, none, some 1, 200, none, none, none, true⟩,
       ⟨3, "111", 2, 2, none, some 1, 150, none, none, none, true⟩] }

/-- A sent order with one fully pending line and an in-progress receiving
session anchored to it. -/
def recvDB : DB :=
  { emptyDB with
    suppliers := [⟨1, "SUP", "Supplier One", true⟩],
    purchase_orders := [⟨1, "PO-SUP-20240101-001", 1, "sent", some 10, none, 1, 10, 10, 0, 0⟩],
    line_items := [⟨2, 1, "111", none, "Widget", 10, 1, 1, 10, 0, 10, "pending"⟩],
    sessions := [⟨3, some 1, 1, 0, 0, 0, 0, 0, "in_progress"⟩],
    next_id := 4 }

/-- A completed receiving session. -/
def doneSessionDB : DB :=
  { emptyDB with
    sessions := [⟨1, none, 1, 0, 0, 0, 0, 0, "completed"⟩], next_id := 2 }

/-- A closed order that still has a pending line, with an in-progress
receiving session anchored to it. -/
def closedDB : DB :=
  { emptyDB with
    suppliers := [⟨1, "SUP", "Supplier One", true⟩],
    purchase_orders := [⟨1, "PO-SUP-20240101-001", 1, "closed", some 10, some 20, 1, 5, 5, 0, 0⟩],
    line_items := [⟨2, 1, "111", none, "Widget", 5, 1, 1, 5, 0, 5, "pending"⟩],
    sessions := [⟨3, some 1, 1, 0, 0, 0, 0, 0, "in_progress"⟩],
    next_id := 4 }

/-- An active supplier with a draft order and no price rows at all. -/
def nopriceDB : DB :=
  { emptyDB with
    suppliers := [⟨1, "SUP", "Supplier One", true⟩],
    purchase_orders := [⟨1, "PO-SUP-20240101-001", 1, "draft", none, none, 0, 0, 0, 0, 0⟩],
    next_id := 5 }

/-! ## Helper lemmas -/

theorem aliasFold_head {l : List UPCAlias} {vs : List String} {x : String}
    (hv : vs.head? = some x) :
    (l.foldl aliasFoldStep vs).head? = some x := by
  induction l generalizing vs with
  | nil => exact hv
  | cons a l ih =>
    simp only [List.foldl_cons, aliasFoldStep]
    by_cases hmem : a.supplier_sku ∈ vs
    · rw [if_pos hmem]; exact ih hv
    · rw [if_neg hmem]
      apply ih
      rw [List.head?_append, hv]
      rfl

theorem aliasFold_mem {l : List UPCAlias} {vs : List String} {x : String} (hv : x ∈ vs) :
    x ∈ l.foldl aliasFoldStep vs := by
  induction l generalizing vs with
  | nil => exact hv
  | cons a l ih =>
    simp only [List.foldl_cons, aliasFoldStep]
    by_cases hmem : a.supplier_sku ∈ vs
    · rw [if_pos hmem]; exact ih hv
    · rw [if_neg hmem]; exact ih (List.mem_append_left _ hv)

theorem getBestPrices_unknown (db : DB) (now : ℤ) (upc : String) (mah : ℤ)
    (ioos : Bool) (lim : ℕ) (h : getProductByUpc db upc = none) :
    getBestPricesForUpc db now upc mah ioos lim =
      { upc := upc, product := none, prices := [], statistics := none,
        suppliers_checked := 0, comparison_time := now,
        error := some "Product not found in catalog" } := by
  unfold getBestPricesForUpc
  rw [h]

/-! ## Claim C3 -/

/-- Claim C3: for every UPC with no matching Product in the catalog, the
comparison returns a normal result value with empty prices, error "Product
not found in catalog", and null/zero product, statistics, and
suppliers-checked fields.  `getBestPricesForUpc` is a total function, so no
exception is possible. -/
theorem c3_unknown_upc_result (db : DB) (now : ℤ) (upc : String) (mah : ℤ)
    (ioos : Bool) (lim : ℕ) (h : getProductByUpc db upc = none) :
    getBestPricesForUpc db now upc mah ioos lim =
      { upc := upc, product := none, prices := [], statistics := none,
        suppliers_checked := 0, comparison_time := now,
        error := some "Product not found in catalog" } :=
  getBestPrices_unknown db now upc mah ioos lim h

/-- Claim C3 witness: the empty catalog at UPC 000000000000. -/
theorem c3_unknown_upc_result_witness :
    getProductByUpc emptyDB "000000000000" = none ∧
    getBestPricesForUpc emptyDB 0 "000000000000" 168 false 10 =
      { upc := "000000000000", product := none, prices := [], statistics := none,
        suppliers_checked := 0, comparison_time := 0,
        error := some "Product not found in catalog" } :=
  ⟨rfl, c3_unknown_upc_result emptyDB 0 "000000000000" 168 false 10 rfl⟩

/-! ## Claim C9 -/

/-- Claim C9 counterexample: "012345678905" has 12 characters, so
`get_upc_variants` takes the length-12 branch and appends "0012345678905";
the output does not contain "12345678905" (the alias table is empty, so no
alias can supply it either). -/
theorem c9_counterexample :
    ("012345678905" : String).length = 12 ∧
    getUpcVariants emptyDB "012345678905" = ["012345678905", "0012345678905"] ∧
    "12345678905" ∉ getUpcVariants emptyDB "012345678905" := by
  refine ⟨by decide, by decide, by decide⟩

/-- Claim C9 (amended): `get_upc_variants "012345678905"` starts with the
input and, the input having length 12, additionally contains the
zero-prefixed 13-character form "0012345678905"; the stripping rule of the
claim applies to length-13 inputs instead, e.g. the variants of
"0012345678905" contain "012345678905". -/
theorem c9_variant_rules (db : DB) :
    (getUpcVariants db "012345678905").head? = some "012345678905" ∧
    "0012345678905" ∈ getUpcVariants db "012345678905" ∧
    (getUpcVariants db "0012345678905").head? = some "0012345678905" ∧
    "012345678905" ∈ getUpcVariants db "0012345678905" := by
  have h12 : ("012345678905" : String).length = 12 := by decide
  have h13 : ¬ (("0012345678905" : String).length = 12) := by decide
  have h13b : ("0012345678905" : String).length = 13 ∧
      startsWith0 "0012345678905" = true := by decide
  have hdrop : ("0012345678905" : String).drop 1 = "012345678905" := by decide
  refine ⟨?_, ?_, ?_, ?_⟩
  · unfold getUpcVariants
    rw [if_pos h12, List.head?_append,
      aliasFold_head (show (["012345678905"] : List String).head? = some "012345678905" from rfl)]
    rfl
  · unfold getUpcVariants
    rw [if_pos h12]
    exact List.mem_append_right _ (List.mem_singleton.mpr rfl)
  · unfold getUpcVariants
    rw [if_neg h13, if_pos h13b, List.head?_append,
      aliasFold_head (show (["0012345678905"] : List String).head? = some "0012345678905" from rfl)]
    rfl
  · unfold getUpcVariants
    rw [if_neg h13, if_pos h13b, hdrop]
    exact List.mem_append_right _ (List.mem_singleton.mpr rfl)

/-! ## Claim C10 -/

/-- Claim C10: receiving against a completed session fails with the
400-equivalent error "Session already completed", and the aborted
transaction leaves the entire store (session totals, purchase order, line
items, receiving items) unchanged. -/
theorem c10_receive_on_completed_session (db : DB) (sid : ℕ) (upc : String)
    (qr qd : ℤ) (s : ReceivingSession)
    (hs : findSession db sid = some s) (hst : s.status = "completed") :
    receiveItem db sid upc qr qd = Except.error ⟨400, "Session already completed"⟩ ∧
    step db (Op.recvReceive sid upc qr qd) = db := by
  have h1 : receiveItem db sid upc qr qd = Except.error ⟨400, "Session already completed"⟩ := by
    simp [receiveItem, hs, hst]
  refine ⟨h1, ?_⟩
  simp [step, applyOp, h1, Except.map]

/-- Claim C10 witness: a store holding one completed session. -/
theorem c10_receive_on_completed_session_witness :
    receiveItem doneSessionDB 1 "111" 5 0 = Except.error ⟨400, "Session already completed"⟩ ∧
    step doneSessionDB (Op.recvReceive 1 "111" 5 0) = doneSessionDB :=
  c10_receive_on_completed_session doneSessionDB 1 "111" 5 0
    ⟨1, none, 1, 0, 0, 0, 0, 0, "completed"⟩ (by decide) rfl

/-! ## Claim C5 -/

/-- Claim C5: for a receive call on a PO-anchored session, with
`qty_good = qty_received - qty_damaged` and
`qty_expected = qty_ordered - already received`, the discrepancy is `short`
when good < expected, `over` when good > expected, `damaged` only when
neither applies and `qty_damaged > 0`, and nothing otherwise; when no line
item with the scanned UPC exists on the PO, the scan is classified
`wrong_item` unconditionally. -/
theorem c5_discrepancy_classification (db : DB) (sid : ℕ) (upc : String) (qr qd : ℤ)
    (s : ReceivingSession) (pid : ℕ)
    (hs : findSession db sid = some s) (hst : s.status ≠ "completed")
    (hpo : s.po_id = some pid) :
    (∀ li, findLine db pid upc = some li →
      ((qr - qd < li.qty_ordered - li.qty_received →
        (receiveItem db sid upc qr qd).map
            (fun out => (out.2.discrepancy_type, out.2.discrepancy_qty)) =
          Except.ok (some "short", some (li.qty_ordered - li.qty_received - (qr - qd)))) ∧
       (li.qty_ordered - li.qty_received < qr - qd →
        (receiveItem db sid upc qr qd).map
            (fun out => (out.2.discrepancy_type, out.2.discrepancy_qty)) =
          Except.ok (some "over", some (qr - qd - (li.qty_ordered - li.qty_received)))) ∧
       (qr - qd = li.qty_ordered - li.qty_received → 0 < qd →
        (receiveItem db sid upc qr qd).map
            (fun out => (out.2.discrepancy_type, out.2.discrepancy_qty)) =
          Except.ok (some "damaged", some qd)) ∧
       (qr - qd = li.qty_ordered - li.qty_received → ¬ 0 < qd →
        (receiveItem db sid upc qr qd).map
            (fun out => (out.2.discrepancy_type, out.2.discrepancy_qty)) =
          Except.ok (none, none)))) ∧
    (findLine db pid upc = none →
      (receiveItem db sid upc qr qd).map
          (fun out => (out.2.discrepancy_type, out.2.discrepancy_qty)) =
        Except.ok (some "wrong_item", none)) := by
  constructor
  · intro li hli
    refine ⟨?_, ?_, ?_, ?_⟩
    · intro hlt
      simp [receiveItem, Except.map, hs, hst, hpo, hli, classifyDiscrepancy, hlt]
    · intro hgt
      have hnlt : ¬ (qr - qd < li.qty_ordered - li.qty_received) := by omega
      simp [receiveItem, Except.map, hs, hst, hpo, hli, classifyDiscrepancy, hnlt, hgt]
    · intro heq hqd
      have hnlt : ¬ (qr - qd < li.qty_ordered - li.qty_received) := by omega
      have hngt : ¬ (li.qty_ordered - li.qty_received < qr - qd) := by omega
      simp [receiveItem, Except.map, hs, hst, hpo, hli, classifyDiscrepancy, hnlt, hngt, hqd]
    · intro heq hqd
      have hnlt : ¬ (qr - qd < li.qty_ordered - li.qty_received) := by omega
      have hngt : ¬ (li.qty_ordered - li.qty_received < qr - qd) := by omega
      simp [receiveItem, Except.map, hs, hst, hpo, hli, classifyDiscrepancy, hnlt, hngt, hqd]
  · intro hnone
    simp [receiveItem, Except.map, hs, hst, hpo, hnone, classifyDiscrepancy]

/-- Claim C5 witness: receiving qty_received = 8, qty_damaged = 1 against a
line with qty_pending = 10 (ordered 10, received 0) is classified short with
discrepancy 3. -/
theorem c5_discrepancy_classification_witness :
    (receiveItem recvDB 3 "111" 8 1).map
        (fun out => (out.2.discrepancy_type, out.2.discrepancy_qty)) =
      Except.ok (some "short", some 3) := by
  have h := ((c5_discrepancy_classification recvDB 3 "111" 8 1
      ⟨3, some 1, 1, 0, 0, 0, 0, 0, "in_progress"⟩ 1 (by decide) (by decide) rfl).1
      ⟨2, 1, "111", none, "Widget", 10, 1, 1, 10, 0, 10, "pending"⟩ (by decide)).1 (by decide)
  simpa using h

/-! ## Claim C6 counterexample -/

/-- Claim C6 counterexample: completing a receiving session anchored to a
purchase order whose status is already "closed" moves that order out of the
closed state — here to "partial", because a line is still pending. -/
theorem c6_counterexample :
    poStatus closedDB 1 = some "closed" ∧
    poStatus (step closedDB (Op.recvComplete 3)) 1 = some "partial" := by
  decide

/-! ## Claim C7 counterexample -/

/-- Claim C7 counterexample: a batch containing an unknown UPC does not
return one comparison per input; the savings accumulation evaluates
`comparison.get("statistics", dict()).get(..)` on a `None` statistics value
(the key is present, so the default never applies) and the call raises
instead of returning results.  The single-item comparison itself returns the
error-shaped value, so the batch had an error-shaped result to propagate. -/
theorem c7_counterexample :
    (getBestPricesForUpc emptyDB 0 "000000000000").error =
      some "Product not found in catalog" ∧
    (getBestPricesForUpc emptyDB 0 "000000000000").statistics = none ∧
    batchCompare emptyDB 0 ["000000000000"] =
      Except.error "AttributeError: NoneType object has no attribute get" := by
  refine ⟨by decide, by decide, by decide⟩

/-! ## Claim C8 -/

/-- Claim C8 counterexample: with no SupplierPrice row for the (upc,
supplier) pair and no unit_cost given, `add_item_to_order` does not fail —
it creates a line item with unit_cost 0. -/
theorem c8_counterexample :
    latestSupplierPrice nopriceDB "789" 1 = none ∧
    (addItemToOrder nopriceDB 1 "789" 2 none).isOk = true ∧
    ∃ li ∈ (step nopriceDB (Op.orderAddItem 1 "789" 2 none)).line_items,
      li.po_id = 1 ∧ li.upc = "789" ∧ li.unit_cost = 0 ∧ li.qty_ordered = 2 := by
  refine ⟨by decide, by decide, by decide⟩

/-- Claim C8 (amended): when unit_cost is omitted and no SupplierPrice row
exists for the (upc, supplier) pair, `add_to_cart` fails with the
400-equivalent "No price found for this item from this supplier" and creates
no cart entry, but `add_item_to_order` does not fail: it defaults the unit
cost to 0 and creates the line item. -/
theorem c8_missing_price_behavior (db : DB) (upc : String) (supplier_id : ℕ) (qty : ℤ)
    (po_id : ℕ) (po : PurchaseOrder) (sup : Supplier)
    (hsup : getSupplier db supplier_id = some sup)
    (hnoprice : latestSupplierPrice db upc supplier_id = none)
    (hpo : findPO db po_id = some po) (hsid : po.supplier_id = supplier_id)
    (hstat : po.status = "draft" ∨ po.status = "sent")
    (hnoline : findLine db po_id upc = none) :
    addToCart db upc supplier_id qty none =
      Except.error ⟨400, "No price found for this item from this supplier"⟩ ∧
    step db (Op.cartAdd upc supplier_id qty none) = db ∧
    ∃ db2, addItemToOrder db po_id upc qty none = Except.ok db2 ∧
      db2.line_items.length = db.line_items.length + 1 ∧
      ∃ li ∈ db2.line_items, li.po_id = po_id ∧ li.upc = upc ∧ li.unit_cost = 0 ∧
        li.qty_ordered = qty := by
  have hcart : addToCart db upc supplier_id qty none =
      Except.error ⟨400, "No price found for this item from this supplier"⟩ := by
    simp [addToCart, hsup, hnoprice]
  have hguard : ¬ (po.status ≠ "draft" ∧ po.status ≠ "sent") := by
    rcases hstat with h | h <;> simp [h]
  have hadd : addItemToOrder db po_id upc qty none =
      Except.ok (updatePOTotals
        { db with
          line_items := db.line_items ++
            [{ id := db.next_id, po_id := po_id, upc := upc,
               product_id := (getProductByUpc db upc).map Product.id,
               product_name := findProductName db upc,
               qty_ordered := qty, unit_cost := 0, case_pack := 1,
               line_total := (qty : ℚ) * 0, qty_received := 0, qty_pending := qty,
               status := "pending" }],
          next_id := db.next_id + 1 } po_id) := by
    simp only [addItemToOrder, hpo]
    rw [if_neg hguard, hsid, hnoprice, hnoline]
  refine ⟨hcart, ?_, ?_⟩
  · simp [step, applyOp, hcart]
  · refine ⟨_, hadd, ?_, ?_⟩
    · show (db.line_items ++ [_]).length = db.line_items.length + 1
      simp
    · exact ⟨_, List.mem_append_right _ (List.mem_singleton.mpr rfl), rfl, rfl, rfl, rfl⟩

/-- Claim C8 witness: the no-price store with a draft order. -/
theorem c8_missing_price_behavior_witness :
    addToCart nopriceDB "789" 1 2 none =
      Except.error ⟨400, "No price found for this item from this supplier"⟩ ∧
    step nopriceDB (Op.cartAdd "789" 1 2 none) = nopriceDB ∧
    ∃ db2, addItemToOrder nopriceDB 1 "789" 2 none = Except.ok db2 ∧
      db2.line_items.length = nopriceDB.line_items.length + 1 ∧
      ∃ li ∈ db2.line_items, li.po_id = 1 ∧ li.upc = "789" ∧ li.unit_cost = 0 ∧
        li.qty_ordered = 2 :=
  c8_missing_price_behavior nopriceDB "789" 1 2 1
    ⟨1, "PO-SUP-20240101-001", 1, "draft", none, none, 0, 0, 0, 0, 0⟩
    ⟨1, "SUP", "Supplier One", true⟩ (by decide) (by decide) (by decide) rfl
    (Or.inl rfl) (by decide)

/-! ## Ranking and deduplication lemmas (for C1 and C2) -/

theorem addRanksFrom_length (n : ℕ) (l : List Offer) :
    (addRanksFrom n l).length = l.length := by
  induction l generalizing n with
  | nil => rfl
  | cons o os ih => simp [addRanksFrom, ih]

theorem addRanksFrom_rank (n : ℕ) (l : List Offer) (i : ℕ)
    (h : i < (addRanksFrom n l).length) :
    ((addRanksFrom n l).get ⟨i, h⟩).rank = n + i + 1 := by
  induction l generalizing n i with
  | nil => cases h
  | cons o os ih =>
    cases i with
    | zero => rfl
    | succ j =>
      have hj : j < (addRanksFrom (n + 1) os).length := by
        simpa [addRanksFrom] using Nat.lt_of_succ_lt_succ (by simpa [addRanksFrom] using h)
      have hrank := ih (n + 1) j hj
      simp only [addRanksFrom, List.get_eq_getElem] at hrank ⊢
      rw [List.getElem_cons_succ, hrank]
      omega

theorem addRanksFrom_map_landed (n : ℕ) (l : List Offer) :
    (addRanksFrom n l).map Offer.landed_cost_per_unit = l.map Offer.landed_cost_per_unit := by
  induction l generalizing n with
  | nil => rfl
  | cons o os ih => simp [addRanksFrom, ih]

theorem addRanksFrom_map_supplier (n : ℕ) (l : List Offer) :
    (addRanksFrom n l).map Offer.supplier_id = l.map Offer.supplier_id := by
  induction l generalizing n with
  | nil => rfl
  | cons o os ih => simp [addRanksFrom, ih]

theorem addRanksFrom_mem {o : Offer} {n : ℕ} {l : List Offer}
    (ho : o ∈ addRanksFrom n l) :
    ∃ o2 ∈ l, o.supplier_id = o2.supplier_id ∧ o.effective_date = o2.effective_date := by
  induction l generalizing n with
  | nil => cases ho
  | cons r os ih =>
    rcases List.mem_cons.mp ho with h | h
    · exact ⟨r, List.mem_cons_self _ _, by rw [h], by rw [h]⟩
    · obtain ⟨o2, hm, h1, h2⟩ := ih h
      exact ⟨o2, List.mem_cons_of_mem _ hm, h1, h2⟩

theorem dedupBySupplier_subset {l : List SupplierPrice} {seen : List ℕ} {p : SupplierPrice}
    (hp : p ∈ dedupBySupplier l seen) : p ∈ l := by
  induction l generalizing seen with
  | nil => cases hp
  | cons q l ih =>
    simp only [dedupBySupplier] at hp
    by_cases hq : q.supplier_id ∈ seen
    · rw [if_pos hq] at hp
      exact List.mem_cons_of_mem _ (ih hp)
    · rw [if_neg hq] at hp
      rcases List.mem_cons.mp hp with h | h
      · exact h ▸ List.mem_cons_self _ _
      · exact List.mem_cons_of_mem _ (ih h)

theorem dedupBySupplier_not_seen {l : List SupplierPrice} {seen : List ℕ} {p : SupplierPrice}
    (hp : p ∈ dedupBySupplier l seen) : p.supplier_id ∉ seen := by
  induction l generalizing seen with
  | nil => cases hp
  | cons q l ih =>
    simp only [dedupBySupplier] at hp
    by_cases hq : q.supplier_id ∈ seen
    · rw [if_pos hq] at hp
      exact ih hp
    · rw [if_neg hq] at hp
      rcases List.mem_cons.mp hp with h | h
      · rw [h]; exact hq
      · intro hm
        exact (ih h) (List.mem_cons_of_mem _ hm)

theorem dedupBySupplier_nodup (l : List SupplierPrice) (seen : List ℕ) :
    ((dedupBySupplier l seen).map SupplierPrice.supplier_id).Nodup := by
  induction l generalizing seen with
  | nil => simp [dedupBySupplier]
  | cons q l ih =>
    simp only [dedupBySupplier]
    by_cases hq : q.supplier_id ∈ seen
    · rw [if_pos hq]; exact ih seen
    · rw [if_neg hq]
      simp only [List.map_cons, List.nodup_cons]
      refine ⟨?_, ih _⟩
      intro hmem
      obtain ⟨p, hp, he⟩ := List.mem_map.mp hmem
      have hin : p.supplier_id ∈ q.supplier_id :: seen := by
        rw [he]; exact List.mem_cons_self _ _
      exact dedupBySupplier_not_seen hp hin

theorem dedupBySupplier_latest {l : List SupplierPrice} (hl : List.Pairwise priceLex l)
    {seen : List ℕ} {p : SupplierPrice} (hp : p ∈ dedupBySupplier l seen) :
    ∀ q ∈ l, q.supplier_id = p.supplier_id → q.effective_date ≤ p.effective_date := by
  induction l generalizing seen with
  | nil => cases hp
  | cons r l ih =>
    have hpair := List.pairwise_cons.mp hl
    simp only [dedupBySupplier] at hp
    by_cases hr : r.supplier_id ∈ seen
    · rw [if_pos hr] at hp
      intro q hq he
      rcases List.mem_cons.mp hq with h | h
      · exfalso
        apply dedupBySupplier_not_seen hp
        rw [← he, h]
        exact hr
      · exact ih hpair.2 hp q h he
    · rw [if_neg hr] at hp
      rcases List.mem_cons.mp hp with hpr | hp2
      · subst hpr
        intro q hq he
        rcases List.mem_cons.mp hq with h | h
        · rw [h]
        · rcases hpair.1 q h with hlt | hsle
          · exact absurd he (by omega)
          · exact hsle.2
      · intro q hq he
        rcases List.mem_cons.mp hq with h | h
        · exfalso
          apply dedupBySupplier_not_seen hp2
          rw [← he, h]
          exact List.mem_cons_self _ _
        · exact ih hpair.2 hp2 q h he

theorem filterMap_map_sublist {α β γ : Type} (f : α → Option β) (g : β → γ) (h : α → γ)
    (hfg : ∀ a b, f a = some b → g b = h a) (l : List α) :
    ((l.filterMap f).map g).Sublist (l.map h) := by
  induction l with
  | nil => simp
  | cons a l ih =>
    rw [List.filterMap_cons]
    cases hfa : f a with
    | none => exact (List.map_cons _ _ _ ▸ ih.cons (h a))
    | some b =>
      rw [List.map_cons, List.map_cons, hfg a b hfa]
      exact ih.cons₂ (h a)

theorem buildOffer_fields {db : DB} {now : ℤ} {product : Product} {p : SupplierPrice}
    {o : Offer} (hb : buildOffer db now product p = some o) :
    o.supplier_id = p.supplier_id ∧ o.effective_date = p.effective_date := by
  unfold buildOffer at hb
  cases hs : getSupplier db p.supplier_id with
  | none =>
    simp only [hs] at hb
    exact Option.noConfusion hb
  | some supplier =>
    simp only [hs] at hb
    by_cases ha : supplier.is_active = true
    · rw [if_pos ha] at hb
      have hs2 : db.suppliers.find? (fun s => s.id == p.supplier_id) = some supplier := hs
      have hid : (supplier.id == p.supplier_id) = true := by
        simpa using List.find?_some hs2
      simp only [Option.some.injEq] at hb
      subst hb
      refine ⟨?_, rfl⟩
      show supplier.id = p.supplier_id
      exact beq_iff_eq.mp hid
    · rw [if_neg ha] at hb
      exact Option.noConfusion hb

theorem prices_shape (db : DB) (now : ℤ) (upc : String) (mah : ℤ) (ioos : Bool) (lim : ℕ)
    {product : Product} (hp : getProductByUpc db upc = some product) :
    (getBestPricesForUpc db now upc mah ioos lim).prices =
      (addRanks (List.insertionSort offerLe
        ((dedupBySupplier (candidatePrices db now upc mah ioos) []).filterMap
          (buildOffer db now product)))).take lim := by
  unfold getBestPricesForUpc
  rw [hp]

/-! ## Claim C1 -/

/-- Claim C1: every comparison result's offer list is sorted in ascending
order of landed_cost_per_unit, and each offer's rank equals its 1-based
position in the list. -/
theorem c1_sorted_and_ranked (db : DB) (now : ℤ) (upc : String) (mah : ℤ)
    (ioos : Bool) (lim : ℕ) :
    List.Pairwise (fun a b : Offer => a.landed_cost_per_unit ≤ b.landed_cost_per_unit)
      (getBestPricesForUpc db now upc mah ioos lim).prices ∧
    ∀ i (h : i < (getBestPricesForUpc db now upc mah ioos lim).prices.length),
      ((getBestPricesForUpc db now upc mah ioos lim).prices.get ⟨i, h⟩).rank = i + 1 := by
  cases hp : getProductByUpc db upc with
  | none =>
    constructor
    · have hnil : (getBestPricesForUpc db now upc mah ioos lim).prices = [] := by
        rw [getBestPrices_unknown db now upc mah ioos lim hp]
      rw [hnil]
      exact List.Pairwise.nil
    · intro i h
      rw [getBestPrices_unknown db now upc mah ioos lim hp] at h
      exact absurd h (by simp)
  | some product =>
    have hpr := prices_shape db now upc mah ioos lim hp
    constructor
    · rw [hpr]
      have h1 : List.Pairwise offerLe (List.insertionSort offerLe
          ((dedupBySupplier (candidatePrices db now upc mah ioos) []).filterMap
            (buildOffer db now product))) :=
        List.sorted_insertionSort offerLe _
      have h2 : List.Pairwise (fun a b : ℚ => a ≤ b)
          ((List.insertionSort offerLe
            ((dedupBySupplier (candidatePrices db now upc mah ioos) []).filterMap
              (buildOffer db now product))).map Offer.landed_cost_per_unit) :=
        List.pairwise_map.mpr h1
      have h3 : List.Pairwise (fun a b : ℚ => a ≤ b)
          ((addRanks (List.insertionSort offerLe
            ((dedupBySupplier (candidatePrices db now upc mah ioos) []).filterMap
              (buildOffer db now product)))).map Offer.landed_cost_per_unit) := by
        rw [addRanks, addRanksFrom_map_landed]
        exact h2
      have h4 := List.pairwise_map.mp h3
      exact h4.sublist (List.take_sublist _ _)
    · rw [hpr]
      intro i h
      have hlen : i < (addRanksFrom 0 (List.insertionSort offerLe
          ((dedupBySupplier (candidatePrices db now upc mah ioos) []).filterMap
            (buildOffer db now product)))).length := by
        rw [List.length_take] at h
        exact (lt_min_iff.mp h).2
      have hrank := addRanksFrom_rank 0 (List.insertionSort offerLe
        ((dedupBySupplier (candidatePrices db now upc mah ioos) []).filterMap
          (buildOffer db now product))) i hlen
      rw [List.get_eq_getElem] at hrank ⊢
      rw [List.getElem_take]
      exact hrank.trans (by omega)

/-- Claim C1 witness: in the two-supplier catalog the returned list is
nonempty (two offers), sorted, and the first offer has rank 1. -/
theorem c1_sorted_and_ranked_witness :
    0 < (getBestPricesForUpc cmpDB 1000 "111" 168 false 10).prices.length ∧
    List.Pairwise (fun a b : Offer => a.landed_cost_per_unit ≤ b.landed_cost_per_unit)
      (getBestPricesForUpc cmpDB 1000 "111" 168 false 10).prices ∧
    ∃ h : 0 < (getBestPricesForUpc cmpDB 1000 "111" 168 false 10).prices.length,
      ((getBestPricesForUpc cmpDB 1000 "111" 168 false 10).prices.get ⟨0, h⟩).rank = 0 + 1 :=
  ⟨by decide, (c1_sorted_and_ranked cmpDB 1000 "111" 168 false 10).1,
    ⟨by decide, (c1_sorted_and_ranked cmpDB 1000 "111" 168 false 10).2 0 (by decide)⟩⟩

/-! ## Claim C2 -/

/-- Claim C2: each supplier_id appears in at most one offer of a comparison
result, and every offer carries the latest effective_date among that
supplier's candidate price observations (the deduplication keeps the most
recent observation per supplier). -/
theorem c2_dedup_per_supplier (db : DB) (now : ℤ) (upc : String) (mah : ℤ)
    (ioos : Bool) (lim : ℕ) :
    ((getBestPricesForUpc db now upc mah ioos lim).prices.map Offer.supplier_id).Nodup ∧
    ∀ o ∈ (getBestPricesForUpc db now upc mah ioos lim).prices,
      ∀ q ∈ candidatePrices db now upc mah ioos,
        q.supplier_id = o.supplier_id → q.effective_date ≤ o.effective_date := by
  cases hp : getProductByUpc db upc with
  | none =>
    rw [getBestPrices_unknown db now upc mah ioos lim hp]
    exact ⟨List.Pairwise.nil, by intro o ho; cases ho⟩
  | some product =>
    have hpr := prices_shape db now upc mah ioos lim hp
    have hsorted : List.Pairwise priceLex (candidatePrices db now upc mah ioos) :=
      List.sorted_insertionSort priceLex _
    constructor
    · rw [hpr]
      have n0 : ((dedupBySupplier (candidatePrices db now upc mah ioos) []).map
          SupplierPrice.supplier_id).Nodup :=
        dedupBySupplier_nodup _ _
      have hsub : (((dedupBySupplier (candidatePrices db now upc mah ioos) []).filterMap
            (buildOffer db now product)).map Offer.supplier_id).Sublist
          ((dedupBySupplier (candidatePrices db now upc mah ioos) []).map
            SupplierPrice.supplier_id) :=
        filterMap_map_sublist _ _ _ (fun a b hab => (buildOffer_fields hab).1) _
      have n1 := hsub.nodup n0
      have hperm : ((List.insertionSort offerLe
            ((dedupBySupplier (candidatePrices db now upc mah ioos) []).filterMap
              (buildOffer db now product))).map Offer.supplier_id).Perm
          (((dedupBySupplier (candidatePrices db now upc mah ioos) []).filterMap
            (buildOffer db now product)).map Offer.supplier_id) :=
        (List.perm_insertionSort offerLe _).map _
      have n2 := hperm.nodup_iff.mpr n1
      have n3 : ((addRanks (List.insertionSort offerLe
          ((dedupBySupplier (candidatePrices db now upc mah ioos) []).filterMap
            (buildOffer db now product)))).map Offer.supplier_id).Nodup := by
        rw [addRanks, addRanksFrom_map_supplier]
        exact n2
      rw [List.map_take]
      exact (List.take_sublist _ _).nodup n3
    · intro o ho q hq he
      rw [hpr] at ho
      have ho2 := (List.take_sublist _ _).subset ho
      obtain ⟨o3, ho3, hsup3, heff3⟩ := addRanksFrom_mem ho2
      have ho4 : o3 ∈ (dedupBySupplier (candidatePrices db now upc mah ioos) []).filterMap
          (buildOffer db now product) :=
        (List.perm_insertionSort offerLe _).subset ho3
      obtain ⟨p, hpmem, hpb⟩ := List.mem_filterMap.mp ho4
      obtain ⟨hps, hpe⟩ := buildOffer_fields hpb
      have hlatest := dedupBySupplier_latest hsorted hpmem q hq
      rw [hsup3, hps] at he
      have hle := hlatest he
      rw [heff3, hpe]
      exact hle

/-- Claim C2 witness: the two-supplier catalog, where supplier 1 has two
candidate prices and only the later one survives. -/
theorem c2_dedup_per_supplier_witness :
    (getBestPricesForUpc cmpDB 1000 "111" 168 false 10).prices.length = 2 ∧
    (candidatePrices cmpDB 1000 "111" 168 false).length = 3 ∧
    ((getBestPricesForUpc cmpDB 1000 "111" 168 false 10).prices.map Offer.supplier_id).Nodup ∧
    ∀ o ∈ (getBestPricesForUpc cmpDB 1000 "111" 168 false 10).prices,
      ∀ q ∈ candidatePrices cmpDB 1000 "111" 168 false,
        q.supplier_id = o.supplier_id → q.effective_date ≤ o.effective_date :=
  ⟨by decide, by decide, (c2_dedup_per_supplier cmpDB 1000 "111" 168 false 10).1,
    (c2_dedup_per_supplier cmpDB 1000 "111" 168 false 10).2⟩

/-! ## Line item invariant lemmas (for C4) -/

theorem linesOk_append {l1 l2 : List POLineItem} (h1 : linesOk l1) (h2 : linesOk l2) :
    linesOk (l1 ++ l2) := by
  intro li hli
  rcases List.mem_append.mp hli with h | h
  · exact h1 li h
  · exact h2 li h

theorem linesOk_filter {l : List POLineItem} (p : POLineItem → Bool) (h : linesOk l) :
    linesOk (l.filter p) := fun li hli => h li (List.mem_filter.mp hli).1

theorem linesOk_map_ite {l : List POLineItem} (c : POLineItem → Bool)
    (f : POLineItem → POLineItem)
    (hf : ∀ li, (f li).qty_pending = (f li).qty_ordered - (f li).qty_received)
    (h : linesOk l) : linesOk (l.map fun li => if c li then f li else li) := by
  intro li hli
  obtain ⟨x, hx, he⟩ := List.mem_map.mp hli
  by_cases hc : c x = true
  · rw [← he, if_pos hc]; exact hf x
  · rw [← he, if_neg hc]; exact h x hx

theorem addToCart_lines {db : DB} {u : String} {sid : ℕ} {q : ℤ} {c : Option ℚ} {db2 : DB}
    (h : addToCart db u sid q c = Except.ok db2) : db2.line_items = db.line_items := by
  unfold addToCart at h
  repeat' split at h
  all_goals cases h
  all_goals rfl

theorem removeFromCart_lines {db : DB} {i : ℕ} {db2 : DB}
    (h : removeFromCart db i = Except.ok db2) : db2.line_items = db.line_items := by
  unfold removeFromCart at h
  repeat' split at h
  all_goals cases h
  all_goals rfl

theorem clearCart_lines {db : DB} {db2 : DB}
    (h : clearCart db = Except.ok db2) : db2.line_items = db.line_items := by
  unfold clearCart at h
  cases h
  rfl

theorem createOrder_lines {db : DB} {sid : ℕ} {t : String} {db2 : DB}
    (h : createOrder db sid t = Except.ok db2) : db2.line_items = db.line_items := by
  unfold createOrder at h
  repeat' split at h
  all_goals cases h
  all_goals rfl

theorem sendOrder_lines {db : DB} {now : ℤ} {pid : ℕ} {db2 : DB}
    (h : sendOrder db now pid = Except.ok db2) : db2.line_items = db.line_items := by
  unfold sendOrder at h
  repeat' split at h
  all_goals cases h
  all_goals rfl

theorem closeOrder_lines {db : DB} {now : ℤ} {pid : ℕ} {db2 : DB}
    (h : closeOrder db now pid = Except.ok db2) : db2.line_items = db.line_items := by
  unfold closeOrder at h
  repeat' split at h
  all_goals cases h
  all_goals rfl

theorem startSession_lines {db : DB} {p s : Option ℕ} {db2 : DB}
    (h : startSession db p s = Except.ok db2) : db2.line_items = db.line_items := by
  unfold startSession at h
  repeat' split at h
  all_goals cases h
  all_goals rfl

theorem completeSession_lines {db : DB} {sid : ℕ} {db2 : DB}
    (h : completeSession db sid = Except.ok db2) : db2.line_items = db.line_items := by
  unfold completeSession at h
  cases hs : findSession db sid with
  | none =>
    simp only [hs] at h
    exact Except.noConfusion h
  | some session =>
    simp only [hs] at h
    cases hpo : session.po_id with
    | none =>
      simp only [hpo] at h
      cases h
      rfl
    | some pid =>
      simp only [hpo] at h
      cases hfp : findPO (updateSession db sid fun s => { s with status := "completed" }) pid with
      | none =>
        rw [hfp] at h
        exact Except.noConfusion h
      | some po2 =>
        rw [hfp] at h
        cases h
        rfl

theorem deleteOrder_linesOk {db : DB} {pid : ℕ} {db2 : DB}
    (h : deleteOrder db pid = Except.ok db2) (hok : linesOk db.line_items) :
    linesOk db2.line_items := by
  unfold deleteOrder at h
  repeat' split at h
  all_goals cases h
  all_goals exact linesOk_filter _ hok

theorem removeItemFromOrder_linesOk {db : DB} {pid iid : ℕ} {db2 : DB}
    (h : removeItemFromOrder db pid iid = Except.ok db2) (hok : linesOk db.line_items) :
    linesOk db2.line_items := by
  unfold removeItemFromOrder at h
  repeat' split at h
  all_goals cases h
  all_goals exact linesOk_filter _ hok

theorem updateLine_linesOk (db : DB) (i : ℕ) (f : POLineItem → POLineItem)
    (hf : ∀ li, (f li).qty_pending = (f li).qty_ordered - (f li).qty_received)
    (hok : linesOk db.line_items) : linesOk (updateLine db i f).line_items :=
  linesOk_map_ite _ _ hf hok

theorem addItemToOrder_linesOk {db : DB} {pid : ℕ} {u : String} {q : ℤ} {c : Option ℚ}
    {db2 : DB} (h : addItemToOrder db pid u q c = Except.ok db2)
    (hok : linesOk db.line_items) : linesOk db2.line_items := by
  unfold addItemToOrder at h
  cases hpo : findPO db pid with
  | none =>
    simp only [hpo] at h
    exact Except.noConfusion h
  | some po =>
    simp only [hpo] at h
    split at h
    · exact Except.noConfusion h
    · cases hline : findLine db pid u with
      | some existing =>
        simp only [hline] at h
        cases h
        exact updateLine_linesOk db existing.id _ (fun li => rfl) hok
      | none =>
        simp only [hline] at h
        cases h
        refine linesOk_append hok ?_
        intro li hli
        rw [List.mem_singleton.mp hli]
        simp

theorem receiveItem_linesOk {db : DB} {sid : ℕ} {u : String} {qr qd : ℤ}
    {out : DB × ReceiveResponse} (h : receiveItem db sid u qr qd = Except.ok out)
    (hok : linesOk db.line_items) : linesOk out.1.line_items := by
  unfold receiveItem at h
  cases hs : findSession db sid with
  | none =>
    simp only [hs] at h
    exact Except.noConfusion h
  | some session =>
    simp only [hs] at h
    split at h
    · exact Except.noConfusion h
    · cases hpo : session.po_id with
      | none =>
        simp only [hpo] at h
        cases h
        exact hok
      | some pid =>
        simp only [hpo] at h
        cases hline : findLine db pid u with
        | none =>
          simp only [hline] at h
          cases h
          exact hok
        | some li =>
          simp only [hline] at h
          cases h
          exact updateLine_linesOk db li.id _ (fun l => rfl) hok

theorem createPOForSupplier_linesOk {db : DB} {t : String} {sid : ℕ}
    (hok : linesOk db.line_items) :
    linesOk (createPOForSupplier db t sid).line_items := by
  unfold createPOForSupplier
  cases getSupplier db sid with
  | none => exact hok
  | some supplier =>
    refine linesOk_append hok ?_
    intro li hli
    obtain ⟨x, hx, he⟩ := List.mem_map.mp hli
    rw [← he]
    simp

theorem foldl_createPO_linesOk (t : String) (keys : List ℕ) (db : DB)
    (hok : linesOk db.line_items) :
    linesOk (List.foldl (fun d sid => createPOForSupplier d t sid) db keys).line_items := by
  induction keys generalizing db with
  | nil => exact hok
  | cons k ks ih => exact ih _ (createPOForSupplier_linesOk hok)

theorem createPOsFromCart_linesOk {db : DB} {t : String} {db2 : DB}
    (h : createPOsFromCart db t = Except.ok db2) (hok : linesOk db.line_items) :
    linesOk db2.line_items := by
  unfold createPOsFromCart at h
  split at h
  · cases h
  · cases h
    exact foldl_createPO_linesOk t (cartSupplierKeys db.cart) db hok

/-! ## Purchase-order status lemmas (for C6) -/

theorem find?_append_some {α : Type} {p : α → Bool} {l l2 : List α} {x : α}
    (h : l.find? p = some x) : (l ++ l2).find? p = some x := by
  rw [List.find?_append, h]
  rfl

theorem find?_filter_of {α : Type} {p q : α → Bool} (l : List α)
    (himp : ∀ y, p y = true → q y = true) : (l.filter q).find? p = l.find? p := by
  induction l with
  | nil => rfl
  | cons a l ih =>
    by_cases hq : q a = true
    · rw [List.filter_cons_of_pos hq]
      by_cases hp : p a = true
      · rw [List.find?_cons_of_pos _ hp, List.find?_cons_of_pos _ hp]
      · rw [List.find?_cons_of_neg _ hp, List.find?_cons_of_neg _ hp, ih]
    · rw [List.filter_cons_of_neg hq]
      have hp : ¬ p a = true := fun hpa => hq (himp a hpa)
      rw [List.find?_cons_of_neg _ hp, ih]

theorem findPO_updatePO (db : DB) (qid : ℕ) (f : PurchaseOrder → PurchaseOrder)
    (hid : ∀ p, (f p).id = p.id) (pid : ℕ) :
    findPO (updatePO db qid f) pid =
      (findPO db pid).map (fun p => if p.id == qid then f p else p) := by
  unfold findPO updatePO
  rw [List.find?_map]
  congr 1
  show List.find? ((fun p => p.id == pid) ∘ fun p => if p.id == qid then f p else p) _ = _
  congr 1
  funext p
  show ((if p.id == qid then f p else p).id == pid) = (p.id == pid)
  by_cases hq : (p.id == qid) = true
  · rw [if_pos hq, hid]
  · rw [if_neg hq]

theorem poStatus_eq_of_pos {dbA dbB : DB} (h : dbA.purchase_orders = dbB.purchase_orders)
    (pid : ℕ) : poStatus dbA pid = poStatus dbB pid := by
  unfold poStatus findPO
  rw [h]

theorem poStatus_some {db : DB} {pid : ℕ} {po : PurchaseOrder}
    (hpo : findPO db pid = some po) : poStatus db pid = some po.status := by
  unfold poStatus
  rw [hpo]
  rfl

theorem poStatus_updatePO_pres (db : DB) (qid : ℕ) (f : PurchaseOrder → PurchaseOrder)
    (hid : ∀ p, (f p).id = p.id) (hst : ∀ p, (f p).status = p.status) (pid : ℕ) :
    poStatus (updatePO db qid f) pid = poStatus db pid := by
  unfold poStatus
  rw [findPO_updatePO db qid f hid pid]
  cases findPO db pid with
  | none => rfl
  | some p =>
    show some (if p.id == qid then f p else p).status = some p.status
    by_cases hq : (p.id == qid) = true
    · rw [if_pos hq, hst]
    · rw [if_neg hq]

theorem poStatus_updatePOTotals (db : DB) (qid pid : ℕ) :
    poStatus (updatePOTotals db qid) pid = poStatus db pid := by
  unfold updatePOTotals
  refine poStatus_updatePO_pres db qid _ ?_ ?_ pid
  · exact fun _ => rfl
  · exact fun _ => rfl

theorem poStatus_updatePOReceivingTotals (db : DB) (qid pid : ℕ) :
    poStatus (updatePOReceivingTotals db qid) pid = poStatus db pid := by
  unfold updatePOReceivingTotals
  refine poStatus_updatePO_pres db qid _ ?_ ?_ pid
  · exact fun _ => rfl
  · exact fun _ => rfl

theorem poStatus_updatePO_ne (db : DB) (qid : ℕ) (f : PurchaseOrder → PurchaseOrder)
    (hid : ∀ p, (f p).id = p.id) {pid : ℕ} {po : PurchaseOrder}
    (hpo : findPO db pid = some po) (hne : (po.id == qid) = false) :
    poStatus (updatePO db qid f) pid = some po.status := by
  unfold poStatus
  rw [findPO_updatePO db qid f hid pid, hpo]
  show some (if (po.id == qid) = true then f po else po).status = some po.status
  rw [if_neg (by simp [hne])]

theorem findPO_id {db : DB} {pid : ℕ} {po : PurchaseOrder}
    (hpo : findPO db pid = some po) : po.id = pid := by
  have h2 : db.purchase_orders.find? (fun p => p.id == pid) = some po := hpo
  simpa using List.find?_some h2

theorem addToCart_pos {db : DB} {u : String} {sid : ℕ} {q : ℤ} {c : Option ℚ} {db2 : DB}
    (h : addToCart db u sid q c = Except.ok db2) :
    db2.purchase_orders = db.purchase_orders := by
  unfold addToCart at h
  repeat' split at h
  all_goals cases h
  all_goals rfl

theorem removeFromCart_pos {db : DB} {i : ℕ} {db2 : DB}
    (h : removeFromCart db i = Except.ok db2) :
    db2.purchase_orders = db.purchase_orders := by
  unfold removeFromCart at h
  repeat' split at h
  all_goals cases h
  all_goals rfl

theorem clearCart_pos {db : DB} {db2 : DB} (h : clearCart db = Except.ok db2) :
    db2.purchase_orders = db.purchase_orders := by
  unfold clearCart at h
  cases h
  rfl

theorem createOrder_findPO {db : DB} {sid : ℕ} {t : String} {db2 : DB} {pid : ℕ}
    {po : PurchaseOrder} (h : createOrder db sid t = Except.ok db2)
    (hpo : findPO db pid = some po) : findPO db2 pid = some po := by
  unfold createOrder at h
  repeat' split at h
  all_goals cases h
  all_goals exact find?_append_some hpo

theorem createPOForSupplier_findPO {db : DB} {t : String} {sid pid : ℕ} {po : PurchaseOrder}
    (hpo : findPO db pid = some po) :
    findPO (createPOForSupplier db t sid) pid = some po := by
  unfold createPOForSupplier
  cases hg : getSupplier db sid with
  | none => simp only [hg]; exact hpo
  | some supplier => simp only [hg]; exact find?_append_some hpo

theorem foldl_createPO_findPO (t : String) (keys : List ℕ) {db : DB} {pid : ℕ}
    {po : PurchaseOrder} (hpo : findPO db pid = some po) :
    findPO (List.foldl (fun d sid => createPOForSupplier d t sid) db keys) pid = some po := by
  induction keys generalizing db with
  | nil => exact hpo
  | cons k ks ih => exact ih (createPOForSupplier_findPO hpo)

theorem createPOsFromCart_findPO {db : DB} {t : String} {db2 : DB} {pid : ℕ}
    {po : PurchaseOrder} (h : createPOsFromCart db t = Except.ok db2)
    (hpo : findPO db pid = some po) : findPO db2 pid = some po := by
  unfold createPOsFromCart at h
  split at h
  · cases h
  · cases h
    exact foldl_createPO_findPO t _ hpo

theorem addItemToOrder_poStatus {db : DB} {qid : ℕ} {u : String} {q : ℤ} {c : Option ℚ}
    {db2 : DB} (h : addItemToOrder db qid u q c = Except.ok db2) (pid : ℕ) :
    poStatus db2 pid = poStatus db pid := by
  unfold addItemToOrder at h
  cases hfq : findPO db qid with
  | none =>
    simp only [hfq] at h
    exact Except.noConfusion h
  | some poq =>
    simp only [hfq] at h
    split at h
    · exact Except.noConfusion h
    · cases hline : findLine db qid u with
      | some existing =>
        simp only [hline] at h
        cases h
        exact (poStatus_updatePOTotals _ qid pid).trans (poStatus_eq_of_pos rfl pid)
      | none =>
        simp only [hline] at h
        cases h
        exact (poStatus_updatePOTotals _ qid pid).trans (poStatus_eq_of_pos rfl pid)

theorem removeItemFromOrder_poStatus {db : DB} {qid iid : ℕ} {db2 : DB}
    (h : removeItemFromOrder db qid iid = Except.ok db2) (pid : ℕ) :
    poStatus db2 pid = poStatus db pid := by
  unfold removeItemFromOrder at h
  repeat' split at h
  all_goals cases h
  all_goals exact (poStatus_updatePOTotals _ qid pid).trans (poStatus_eq_of_pos rfl pid)

theorem sendOrder_closed {db : DB} {now : ℤ} {qid : ℕ} {db2 : DB} {pid : ℕ}
    {po : PurchaseOrder} (h : sendOrder db now qid = Except.ok db2)
    (hpo : findPO db pid = some po) (hclosed : po.status = "closed") :
    poStatus db2 pid = some "closed" := by
  unfold sendOrder at h
  cases hfq : findPO db qid with
  | none =>
    simp only [hfq] at h
    exact Except.noConfusion h
  | some poq =>
    simp only [hfq] at h
    split at h
    · exact Except.noConfusion h
    · rename_i hnd
      split at h
      · exact Except.noConfusion h
      · cases h
        have hdraft : poq.status = "draft" := not_not.mp hnd
        by_cases hq : (po.id == qid) = true
        · exfalso
          have hqp : qid = pid := by
            have h1 := beq_iff_eq.mp hq
            have h2 := findPO_id hpo
            omega
          rw [hqp] at hfq
          rw [hfq] at hpo
          cases hpo
          rw [hclosed] at hdraft
          exact absurd hdraft (by decide)
        · refine (poStatus_updatePO_ne db qid _ ?_ hpo ?_).trans ?_
          · exact fun p => rfl
          · simpa using hq
          · rw [hclosed]

theorem closeOrder_closed {db : DB} {now : ℤ} {qid : ℕ} {db2 : DB} {pid : ℕ}
    {po : PurchaseOrder} (h : closeOrder db now qid = Except.ok db2)
    (hpo : findPO db pid = some po) (hclosed : po.status = "closed") :
    poStatus db2 pid = some "closed" := by
  unfold closeOrder at h
  cases hfq : findPO db qid with
  | none =>
    simp only [hfq] at h
    exact Except.noConfusion h
  | some poq =>
    simp only [hfq] at h
    cases h
    unfold poStatus
    rw [findPO_updatePO db qid
      (fun p => { p with status := "closed", closed_at := some now }) (fun p => rfl) pid, hpo]
    show some (if (po.id == qid) = true
      then { po with status := "closed", closed_at := some now } else po).status = some "closed"
    by_cases hq : (po.id == qid) = true
    · rw [if_pos hq]
    · rw [if_neg (by simp [hq]), hclosed]

theorem deleteOrder_closed {db : DB} {qid : ℕ} {db2 : DB} {pid : ℕ}
    {po : PurchaseOrder} (h : deleteOrder db qid = Except.ok db2)
    (hpo : findPO db pid = some po) (hclosed : po.status = "closed") :
    poStatus db2 pid = some "closed" := by
  unfold deleteOrder at h
  cases hfq : findPO db qid with
  | none =>
    simp only [hfq] at h
    exact Except.noConfusion h
  | some poq =>
    simp only [hfq] at h
    split at h
    · exact Except.noConfusion h
    · rename_i hnd
      cases h
      have hdraft : poq.status = "draft" := not_not.mp hnd
      have hne : qid ≠ pid := by
        intro he
        rw [he] at hfq
        rw [hfq] at hpo
        cases hpo
        rw [hclosed] at hdraft
        exact absurd hdraft (by decide)
      have hpo3 : List.find? (fun p => p.id == pid) db.purchase_orders = some po := hpo
      unfold poStatus findPO
      rw [find?_filter_of db.purchase_orders ?_, hpo3]
      · show some po.status = some "closed"
        rw [hclosed]
      · intro y hy
        have hyid : y.id = pid := beq_iff_eq.mp hy
        simp [hyid, Ne.symm hne]

theorem startSession_closed {db : DB} {p s : Option ℕ} {db2 : DB} {pid : ℕ}
    {po : PurchaseOrder} (h : startSession db p s = Except.ok db2)
    (hpo : findPO db pid = some po) (hclosed : po.status = "closed") :
    poStatus db2 pid = some "closed" := by
  unfold startSession at h
  cases p with
  | none =>
    cases s with
    | none =>
      exact Except.noConfusion h
    | some sid =>
      cases hg : getSupplier db sid with
      | none =>
        simp only [hg] at h
        exact Except.noConfusion h
      | some sup =>
        simp only [hg] at h
        cases h
        exact (poStatus_eq_of_pos rfl pid).trans ((poStatus_some hpo).trans (by rw [hclosed]))
  | some qid =>
    cases hfq : findPO db qid with
    | none =>
      simp only [hfq] at h
      exact Except.noConfusion h
    | some poq =>
      simp only [hfq] at h
      cases h
      refine (poStatus_eq_of_pos rfl pid).trans ?_
      by_cases hsent : poq.status = "sent"
      · rw [if_pos hsent]
        by_cases hq : (po.id == qid) = true
        · exfalso
          have hqp : qid = pid := by
            have h1 := beq_iff_eq.mp hq
            have h2 := findPO_id hpo
            omega
          rw [hqp] at hfq
          rw [hfq] at hpo
          cases hpo
          rw [hclosed] at hsent
          exact absurd hsent (by decide)
        · refine (poStatus_updatePO_ne db qid _ ?_ hpo ?_).trans ?_
          · exact fun p => rfl
          · simpa using hq
          · rw [hclosed]
      · rw [if_neg hsent]
        exact (poStatus_some hpo).trans (by rw [hclosed])

theorem receiveItem_poStatus {db : DB} {sid : ℕ} {u : String} {qr qd : ℤ}
    {out : DB × ReceiveResponse} (h : receiveItem db sid u qr qd = Except.ok out)
    (pid : ℕ) : poStatus out.1 pid = poStatus db pid := by
  unfold receiveItem at h
  cases hs : findSession db sid with
  | none =>
    simp only [hs] at h
    exact Except.noConfusion h
  | some session =>
    simp only [hs] at h
    split at h
    · exact Except.noConfusion h
    · cases hpoid : session.po_id with
      | none =>
        simp only [hpoid] at h
        cases h
        exact poStatus_eq_of_pos rfl pid
      | some qid =>
        simp only [hpoid] at h
        cases hline : findLine db qid u with
        | none =>
          simp only [hline] at h
          cases h
          exact (poStatus_updatePOReceivingTotals _ qid pid).trans (poStatus_eq_of_pos rfl pid)
        | some li =>
          simp only [hline] at h
          cases h
          exact (poStatus_updatePOReceivingTotals _ qid pid).trans (poStatus_eq_of_pos rfl pid)

theorem completeSession_closed {db : DB} {sid : ℕ} {db2 : DB} {pid : ℕ}
    {po : PurchaseOrder} (h : completeSession db sid = Except.ok db2)
    (hpo : findPO db pid = some po) (hclosed : po.status = "closed")
    (hnot : completesAnchoredSession db pid (Op.recvComplete sid) = false) :
    poStatus db2 pid = some "closed" := by
  unfold completeSession at h
  cases hs : findSession db sid with
  | none =>
    simp only [hs] at h
    exact Except.noConfusion h
  | some session =>
    simp only [hs] at h
    have hnq : (session.po_id == some pid) = false := by
      simp only [completesAnchoredSession, hs] at hnot
      exact hnot
    cases hpoid : session.po_id with
    | none =>
      simp only [hpoid] at h
      cases h
      exact (poStatus_eq_of_pos rfl pid).trans ((poStatus_some hpo).trans (by rw [hclosed]))
    | some qid =>
      simp only [hpoid] at h
      rw [hpoid] at hnq
      have hqp : qid ≠ pid := by simpa using hnq
      cases hfp : findPO (updateSession db sid fun s => { s with status := "completed" }) qid with
      | none =>
        rw [hfp] at h
        exact Except.noConfusion h
      | some po2 =>
        rw [hfp] at h
        cases h
        have hpo2 : findPO (updateSession db sid fun s => { s with status := "completed" }) pid =
            some po := hpo
        refine (poStatus_updatePO_ne _ qid _ ?_ hpo2 ?_).trans ?_
        · exact fun p => rfl
        · rw [findPO_id hpo]
          exact beq_eq_false_iff_ne.mpr (Ne.symm hqp)
        · rw [hclosed]

/-! ## Claim C4 -/

/-- Claim C4: every operation sequence preserves the invariant that each
LineItem's qty_pending equals qty_ordered minus qty_received — line items are
created with qty_received = 0 and qty_pending = qty_ordered (cart conversion
and new order lines), merged lines and received lines recompute qty_pending
as ordered minus received, and failed requests leave the store unchanged. -/
theorem c4_qty_pending_invariant (db : DB) (ops : List Op)
    (h : linesOk db.line_items) : linesOk ((run db ops).line_items) := by
  induction ops generalizing db with
  | nil => exact h
  | cons op ops ih =>
    refine ih (step db op) ?_
    show linesOk (step db op).line_items
    unfold step
    cases happ : applyOp db op with
    | error e => exact h
    | ok db2 =>
      show linesOk db2.line_items
      cases op with
      | cartAdd u s q c => rw [addToCart_lines happ]; exact h
      | cartRemove i => rw [removeFromCart_lines happ]; exact h
      | cartClear => rw [clearCart_lines happ]; exact h
      | cartCreateOrders t => exact createPOsFromCart_linesOk happ h
      | orderCreate s t => rw [createOrder_lines happ]; exact h
      | orderAddItem p u q c => exact addItemToOrder_linesOk happ h
      | orderRemoveItem p i => exact removeItemFromOrder_linesOk happ h
      | orderSend p n => rw [sendOrder_lines happ]; exact h
      | orderClose p n => rw [closeOrder_lines happ]; exact h
      | orderDelete p => exact deleteOrder_linesOk happ h
      | recvStart p s => rw [startSession_lines happ]; exact h
      | recvReceive s u qr qd =>
        simp only [applyOp] at happ
        cases hr : receiveItem db s u qr qd with
        | error e => rw [hr] at happ; cases happ
        | ok out =>
          rw [hr] at happ
          cases happ
          exact receiveItem_linesOk hr h
      | recvComplete s => exact completeSession_lines happ ▸ h

/-- Claim C4 witness: starting from a store with a sent order, a pending
line and an open receiving session, a sequence that adds a line, merges a
duplicate-UPC line, receives against the PO, fills the cart, converts the
cart to orders and completes the session keeps every line item's qty_pending
equal to qty_ordered minus qty_received. -/
theorem c4_qty_pending_invariant_witness :
    linesOk recvDB.line_items ∧
    linesOk ((run recvDB
      [Op.orderAddItem 1 "222" 5 (some 2), Op.orderAddItem 1 "222" 3 (some 2),
       Op.recvReceive 3 "111" 8 1, Op.cartAdd "111" 1 2 (some 3),
       Op.cartCreateOrders "20240102", Op.recvComplete 3]).line_items) ∧
    ((run recvDB
      [Op.orderAddItem 1 "222" 5 (some 2), Op.orderAddItem 1 "222" 3 (some 2),
       Op.recvReceive 3 "111" 8 1, Op.cartAdd "111" 1 2 (some 3),
       Op.cartCreateOrders "20240102", Op.recvComplete 3]).line_items).length = 3 :=
  ⟨by decide,
   c4_qty_pending_invariant recvDB
     [Op.orderAddItem 1 "222" 5 (some 2), Op.orderAddItem 1 "222" 3 (some 2),
      Op.recvReceive 3 "111" 8 1, Op.cartAdd "111" 1 2 (some 3),
      Op.cartCreateOrders "20240102", Op.recvComplete 3] (by decide),
   by decide⟩

/-! ## Claim C6 (amended) -/

/-- Claim C6 (amended): once a purchase order is closed, every operation
other than completing a receiving session anchored to that order leaves its
status "closed" — in particular receivingStart and receivingReceiveItem never
move it; only receivingComplete of an anchored session (excluded by the
hypothesis, and shown to break the claim by the counterexample) overwrites
the closed status. -/
theorem c6_closed_stability (db : DB) (op : Op) (pid : ℕ) (po : PurchaseOrder)
    (hpo : findPO db pid = some po) (hclosed : po.status = "closed")
    (hnot : completesAnchoredSession db pid op = false) :
    poStatus (step db op) pid = some "closed" := by
  have hbase : poStatus db pid = some "closed" := (poStatus_some hpo).trans (by rw [hclosed])
  unfold step
  cases happ : applyOp db op with
  | error e => exact hbase
  | ok db2 =>
    show poStatus db2 pid = some "closed"
    cases op with
    | cartAdd u s q c =>
      rw [poStatus_eq_of_pos (addToCart_pos happ) pid]
      exact hbase
    | cartRemove i =>
      rw [poStatus_eq_of_pos (removeFromCart_pos happ) pid]
      exact hbase
    | cartClear =>
      rw [poStatus_eq_of_pos (clearCart_pos happ) pid]
      exact hbase
    | cartCreateOrders t =>
      rw [poStatus_some (createPOsFromCart_findPO happ hpo), hclosed]
    | orderCreate s t =>
      rw [poStatus_some (createOrder_findPO happ hpo), hclosed]
    | orderAddItem p u q c =>
      rw [addItemToOrder_poStatus happ pid]
      exact hbase
    | orderRemoveItem p i =>
      rw [removeItemFromOrder_poStatus happ pid]
      exact hbase
    | orderSend p n => exact sendOrder_closed happ hpo hclosed
    | orderClose p n => exact closeOrder_closed happ hpo hclosed
    | orderDelete p => exact deleteOrder_closed happ hpo hclosed
    | recvStart p s => exact startSession_closed happ hpo hclosed
    | recvReceive s u qr qd =>
      simp only [applyOp] at happ
      cases hr : receiveItem db s u qr qd with
      | error e =>
        rw [hr] at happ
        cases happ
      | ok out =>
        rw [hr] at happ
        cases happ
        rw [receiveItem_poStatus hr pid]
        exact hbase
    | recvComplete s => exact completeSession_closed happ hpo hclosed hnot

/-- Claim C6 (amended) witness: closing an already-closed order again keeps
it closed. -/
theorem c6_closed_stability_witness :
    poStatus (step closedDB (Op.orderClose 1 99)) 1 = some "closed" :=
  c6_closed_stability closedDB (Op.orderClose 1 99) 1
    ⟨1, "PO-SUP-20240101-001", 1, "closed", some 10, some 20, 1, 5, 5, 0, 0⟩
    (by decide) rfl (by decide)

/-! ## Claim C7 (amended) -/

theorem batchSavingsFold_ok (cs : List ComparisonResult)
    (h : ∀ c ∈ cs, c.statistics ≠ none) (acc : ℚ) :
    cs.foldlM batchSavingsStep acc = Except.ok (acc + specSavingsSum cs) := by
  induction cs generalizing acc with
  | nil =>
    show Except.ok acc = Except.ok (acc + specSavingsSum [])
    simp [specSavingsSum]
  | cons c cs ih =>
    have hrest : ∀ x ∈ cs, x.statistics ≠ none := fun x hx => h x (List.mem_cons_of_mem _ hx)
    cases hst : c.statistics with
    | none => exact absurd hst (h c (List.mem_cons_self _ _))
    | some s =>
      cases hps : s.potential_savings with
      | none =>
        have hstep : batchSavingsStep acc c = Except.ok acc := by
          simp [batchSavingsStep, hst, hps]
        rw [List.foldlM_cons, hstep]
        show cs.foldlM batchSavingsStep acc = Except.ok (acc + specSavingsSum (c :: cs))
        rw [ih hrest]
        congr 1
        simp [specSavingsSum, hst, hps]
      | some v =>
        by_cases hv : v = 0
        · have hstep : batchSavingsStep acc c = Except.ok acc := by
            simp [batchSavingsStep, hst, hps, hv]
          rw [List.foldlM_cons, hstep]
          show cs.foldlM batchSavingsStep acc = Except.ok (acc + specSavingsSum (c :: cs))
          rw [ih hrest]
          congr 1
          simp [specSavingsSum, hst, hps, hv]
        · have hstep : batchSavingsStep acc c = Except.ok (acc + v) := by
            simp [batchSavingsStep, hst, hps, hv]
          rw [List.foldlM_cons, hstep]
          show cs.foldlM batchSavingsStep (acc + v) = Except.ok (acc + specSavingsSum (c :: cs))
          rw [ih hrest]
          congr 1
          simp [specSavingsSum, hst, hps, add_assoc]

/-- Claim C7 (amended): when every per-item comparison of a batch has
non-null statistics, batchCompare returns one comparison per input UPC (each
the independent single-item comparison with default parameters) and its
total_potential_savings is the sum of per-item potential_savings (null or
absent treated as 0) rounded to 2 decimals.  The counterexample shows the
other half of the amendment: with a null-statistics item the call raises. -/
theorem c7_batch_behavior (db : DB) (now : ℤ) (upcs : List String)
    (h : ∀ u ∈ upcs, (getBestPricesForUpc db now u).statistics ≠ none) :
    ∃ br, batchCompare db now upcs = Except.ok br ∧
      br.comparisons = upcs.map (fun u => getBestPricesForUpc db now u) ∧
      br.summary.items_compared = upcs.length ∧
      br.summary.total_potential_savings =
        round2 (specSavingsSum (upcs.map (fun u => getBestPricesForUpc db now u))) := by
  have hall : ∀ c ∈ upcs.map (fun u => getBestPricesForUpc db now u), c.statistics ≠ none := by
    intro c hc
    obtain ⟨u, hu, he⟩ := List.mem_map.mp hc
    rw [← he]
    exact h u hu
  have hfold := batchSavingsFold_ok _ hall 0
  have hmain : batchCompare db now upcs = Except.ok
      { comparisons := upcs.map (fun u => getBestPricesForUpc db now u),
        summary :=
          { items_compared := (upcs.map (fun u => getBestPricesForUpc db now u)).length,
            items_with_prices := ((upcs.map (fun u => getBestPricesForUpc db now u)).filter
              (fun r => !r.prices.isEmpty)).length,
            total_potential_savings := round2 (0 + specSavingsSum
              (upcs.map (fun u => getBestPricesForUpc db now u))) } } := by
    unfold batchCompare
    simp only [hfold]
    rfl
  refine ⟨_, hmain, rfl, ?_, ?_⟩
  · show (upcs.map (fun u => getBestPricesForUpc db now u)).length = upcs.length
    rw [List.length_map]
  · show round2 (0 + specSavingsSum (upcs.map (fun u => getBestPricesForUpc db now u))) = _
    rw [zero_add]

/-- Claim C7 (amended) witness: a one-element batch over the two-supplier
catalog, where the comparison has statistics. -/
theorem c7_batch_behavior_witness :
    (∀ u ∈ ["111"], (getBestPricesForUpc cmpDB 1000 u).statistics ≠ none) ∧
    ∃ br, batchCompare cmpDB 1000 ["111"] = Except.ok br ∧
      br.comparisons = ["111"].map (fun u => getBestPricesForUpc cmpDB 1000 u) ∧
      br.summary.items_compared = (["111"] : List String).length ∧
      br.summary.total_potential_savings =
        round2 (specSavingsSum (["111"].map (fun u => getBestPricesForUpc cmpDB 1000 u))) :=
  ⟨by decide, c7_batch_behavior cmpDB 1000 ["111"] (by decide)⟩

end BestBuy

